import Mathlib

set_option linter.unusedVariables false
set_option maxRecDepth 40000

/-!
Verification development for the `guh` USB 2.0 host controller stack.

The definitions below are a shallow embedding of the Amaranth hardware
description in `src/guh`: each cycle-synchronous state machine becomes an
explicit step function on a state record, with the signals sampled by that
machine in a given cycle gathered into an input record.  Register updates
follow Amaranth semantics: all reads see the pre-cycle values, and when a
register is assigned more than once in a cycle the textually later
assignment wins.  Machine integers are modelled as `Nat` with explicit
`% 2^w` where the hardware register would wrap.
-/

-- ============================================================
-- Shared types (src/guh/usbh/sie.py, src/guh/usbh/types.py)
-- ============================================================

/-- Transfer types accepted by the SIE (`TransferType` in sie.py). -/
inductive TransferType
  | setup
  | tin
  | tout
  deriving DecidableEq, Repr

/-- Data PID for data packets (`DataPID` in sie.py): `false` = DATA0, `true` = DATA1. -/
abbrev DataPid := Bool

/-- Terminal (and in-progress) transfer responses (`TransferResponse` in sie.py). -/
inductive TransferResponse
  | none
  | ack
  | nak
  | stall
  | timeout
  | crcError
  | rxOverflow
  deriving DecidableEq, Repr

/-- Host speeds (`USBHostSpeed` in types.py). -/
inductive USBHostSpeed
  | high
  | full
  | low
  | unknown
  deriving DecidableEq, Repr

/-- Transfer descriptor captured by the SIE at `start` (`USBSIEInterface.Transfer`). -/
structure Xfer where
  ttype   : TransferType
  devAddr : Nat
  epAddr  : Nat
  dataPid : DataPid
  deriving DecidableEq, Repr

-- ============================================================
-- Setup packets (src/guh/protocol/setup.py)
-- ============================================================

/-- Pack the `SetupPayload` struct fields into the 64-bit little-endian value used
by `SetupPayload._dict_to_bytes`.  Field layout (LSB first): bmRecipient (5 bits),
bmType (2 bits), bmDirection (1 bit), bRequest (8), wValue (16), wIndex (16),
wLength (16). -/
def setupPackedValue (recipient typ direction bRequest wValue wIndex wLength : Nat) : Nat :=
  (recipient % 32) + (typ % 4) * 2^5 + (direction % 2) * 2^7 +
  (bRequest % 256) * 2^8 + (wValue % 2^16) * 2^16 +
  (wIndex % 2^16) * 2^32 + (wLength % 2^16) * 2^48

/-- `SetupPayload._dict_to_bytes`: serialise the packed value to 8 little-endian bytes. -/
def setupDictToBytes (v : Nat) : List Nat :=
  (List.range 8).map (fun n => (v >>> (n * 8)) % 256)

/-- `SetupPayload.get_descriptor`: recipient=DEVICE(0), type=STANDARD(0),
direction=DEVICE_TO_HOST(1), bRequest=GET_DESCRIPTOR(0x06). -/
def SetupPayload.get_descriptor (descriptorType descriptorIndex languageId length : Nat) : List Nat :=
  setupDictToBytes (setupPackedValue 0 0 1 0x06
    ((descriptorType <<< 8) ||| descriptorIndex) languageId length)

/-- `SetupPayload.set_address`: recipient=DEVICE(0), type=STANDARD(0),
direction=HOST_TO_DEVICE(0), bRequest=SET_ADDRESS(0x05). -/
def SetupPayload.set_address (address : Nat) : List Nat :=
  setupDictToBytes (setupPackedValue 0 0 0 0x05 address 0 0)

/-- `SetupPayload.set_configuration`: recipient=DEVICE(0), type=STANDARD(0),
direction=HOST_TO_DEVICE(0), bRequest=SET_CONFIGURATION(0x09). -/
def SetupPayload.set_configuration (configuration : Nat) : List Nat :=
  setupDictToBytes (setupPackedValue 0 0 0 0x09 configuration 0 0)

-- ============================================================
-- SCSI Command Block Wrapper construction (src/guh/engines/msc.py)
-- ============================================================

/-- `CBW_SIGNATURE` in msc.py. -/
def CBW_SIGNATURE : Nat := 0x43425355

/-- SCSI opcodes used by the MSC engine (`SCSIOpCode` in msc.py). -/
def SCSIOpCode.TEST_UNIT_READY : Nat := 0x00

/-- SCSI REQUEST SENSE opcode. -/
def SCSIOpCode.REQUEST_SENSE : Nat := 0x03

/-- `CBWFlags.DATA_IN` (device to host). -/
def CBWFlags.DATA_IN : Nat := 0x80

/-- `CBWFlags.DATA_OUT` (host to device). -/
def CBWFlags.DATA_OUT : Nat := 0x00

/-- Command input of `SCSIBulkHost` (the parts that shape the CBW). `cdb` is the
raw 128-bit CDB union value; its low byte is the opcode. -/
structure ScsiCommand where
  dataLen : Nat
  cdb     : Nat
  deriving DecidableEq, Repr

/-- `cdb_len` mux in `SCSIBulkHost.elaborate`: 6 for TEST_UNIT_READY / REQUEST_SENSE,
10 for every other opcode.  The opcode is the low byte of the CDB union. -/
def cbwCdbLen (cmd : ScsiCommand) : Nat :=
  if cmd.cdb % 256 = SCSIOpCode.TEST_UNIT_READY ∨ cmd.cdb % 256 = SCSIOpCode.REQUEST_SENSE
  then 6 else 10

/-- `bmCBWFlags` mux in `SCSIBulkHost.elaborate`: DATA_IN when `data_len > 0`,
DATA_OUT otherwise. -/
def cbwFlags (cmd : ScsiCommand) : Nat :=
  if cmd.dataLen > 0 then CBWFlags.DATA_IN else CBWFlags.DATA_OUT

/-- The packed 248-bit CBW value built combinationally in `SCSIBulkHost.elaborate`.
Field layout (LSB first): dCBWSignature (32 bits), dCBWTag (32), dCBWDataTransferLength
(32), bmCBWFlags (8), bCBWLUN (4, left at 0) + reserved (4), bCBWCBLength (5) +
reserved (3), CBWCB (128). -/
def cbwPackedValue (tag : Nat) (cmd : ScsiCommand) : Nat :=
  CBW_SIGNATURE + (tag % 2^32) * 2^32 + (cmd.dataLen % 2^32) * 2^64 +
  cbwFlags cmd * 2^96 + cbwCdbLen cmd * 2^112 + (cmd.cdb % 2^128) * 2^120

/-- The 31 bytes of the CBW, as shifted out byte-by-byte by the `CBW-LOAD` state. -/
def cbwBytes (tag : Nat) (cmd : ScsiCommand) : List Nat :=
  (List.range 31).map (fun n => (cbwPackedValue tag cmd >>> (n * 8)) % 256)

-- ============================================================
-- SOF controller (USBSOFController in src/guh/usbh/sie.py)
-- ============================================================

/-- FSM states of `USBSOFController`. -/
inductive SofFsm
  | idle
  | send
  deriving DecidableEq, Repr

/-- Registers of `USBSOFController`: the free-running 16-bit `sof_timer`, the 11-bit
`frame_number`, the 3-bit `microframe_number`, and the FSM state. -/
structure SofState where
  fsm   : SofFsm
  timer : Nat
  frame : Nat
  micro : Nat
  deriving DecidableEq, Repr

/-- `_SOF_CYCLES_FS` / `_SOF_CYCLES_HS`: SOF period in 60 MHz cycles. -/
def sofCycles (speed : USBHostSpeed) : Nat :=
  if speed = USBHostSpeed.high then 7500 else 60000

/-- `_SOF_TX_TO_TX_MIN_*`: start of the transmit-allowed window. -/
def txToTxMin (speed : USBHostSpeed) : Nat :=
  if speed = USBHostSpeed.high then 2 * 750 else 2 * 6000

/-- `_SOF_TX_TO_TX_MAX_*`: end of the transmit-allowed window. -/
def txToTxMax (speed : USBHostSpeed) : Nat :=
  if speed = USBHostSpeed.high then 7 * 750 else 7 * 6000

/-- `_SOF_TX_TO_RX_MAX_*`: end of the receive-allowed window. -/
def txToRxMax (speed : USBHostSpeed) : Nat :=
  if speed = USBHostSpeed.high then 9 * 750 else 9 * 6000

/-- Combinational `txa` output of `USBSOFController`. -/
def sofTxa (speed : USBHostSpeed) (s : SofState) : Bool :=
  txToTxMin speed ≤ s.timer ∧ s.timer < txToTxMax speed

/-- Combinational `rxa` output of `USBSOFController`. -/
def sofRxa (speed : USBHostSpeed) (s : SofState) : Bool :=
  txToTxMin speed ≤ s.timer ∧ s.timer < txToRxMax speed

/-- Combinational `o.valid` output of `USBSOFController`: a SOF token is offered
to the token generator exactly while the FSM sits in SEND. -/
def sofValid (s : SofState) : Bool :=
  s.fsm = SofFsm.send

/-- One clock cycle of `USBSOFController`.  `ready` is the token generator's
`o.ready` input.  The free-running timer increments every cycle; in IDLE, when it
reaches `sof_cycles - 1` it is reset to 0, the frame/microframe counters advance,
and the FSM moves to SEND, where it offers one SOF token until `ready`. -/
def sofStep (speed : USBHostSpeed) (ready : Bool) (s : SofState) : SofState :=
  match s.fsm with
  | SofFsm.idle =>
    if s.timer = sofCycles speed - 1 then
      if speed = USBHostSpeed.high then
        if s.micro = 7 then
          { fsm := SofFsm.send, timer := 0, frame := (s.frame + 1) % 2^11, micro := 0 }
        else
          { fsm := SofFsm.send, timer := 0, frame := s.frame, micro := (s.micro + 1) % 8 }
      else
        { fsm := SofFsm.send, timer := 0, frame := (s.frame + 1) % 2^11, micro := s.micro }
    else
      { s with timer := (s.timer + 1) % 2^16 }
  | SofFsm.send =>
    if ready then
      { s with fsm := SofFsm.idle, timer := (s.timer + 1) % 2^16 }
    else
      { s with timer := (s.timer + 1) % 2^16 }

/-- Run the SOF controller for `n` cycles with the token generator always ready. -/
def sofRun (speed : USBHostSpeed) : Nat → SofState → SofState
  | 0, s => s
  | n + 1, s => sofRun speed n (sofStep speed true s)

/-- Number of cycles, among the next `n`, in which the SOF controller offers a SOF
token (i.e. sits in SEND) with the token generator always ready.  With `ready`
high each such cycle hands exactly one token over. -/
def sofEmitCount (speed : USBHostSpeed) : Nat → SofState → Nat
  | 0, _ => 0
  | n + 1, s => (if sofValid s then 1 else 0) + sofEmitCount speed n (sofStep speed true s)

/-- Counter advance performed when a SOF is scheduled, as one function:
FS increments the frame; HS advances the microframe and carries into the frame
when the microframe wraps 7 to 0. -/
def sofAdvance (speed : USBHostSpeed) (frame micro : Nat) : Nat × Nat :=
  if speed = USBHostSpeed.high then
    if micro = 7 then ((frame + 1) % 2^11, 0) else (frame, (micro + 1) % 8)
  else ((frame + 1) % 2^11, micro)

lemma sofRun_succ (speed : USBHostSpeed) (n : Nat) (s : SofState) :
    sofRun speed (n + 1) s = sofRun speed n (sofStep speed true s) := rfl

lemma sofEmitCount_succ (speed : USBHostSpeed) (n : Nat) (s : SofState) :
    sofEmitCount speed (n + 1) s =
      (if sofValid s then 1 else 0) + sofEmitCount speed n (sofStep speed true s) := rfl

/-- While the timer has not yet reached `sof_cycles - 1`, the IDLE state just counts. -/
lemma sofRun_idle_segment (speed : USBHostSpeed) :
    ∀ (k t f u : Nat), t + k = sofCycles speed - 1 →
      sofRun speed k { fsm := SofFsm.idle, timer := t, frame := f, micro := u } =
        { fsm := SofFsm.idle, timer := sofCycles speed - 1, frame := f, micro := u } ∧
      sofEmitCount speed k { fsm := SofFsm.idle, timer := t, frame := f, micro := u } = 0 := by
  intro k
  induction k with
  | zero =>
    intro t f u ht
    simp at ht
    simp [sofRun, sofEmitCount, ht]
  | succ k ih =>
    intro t f u ht
    have hcyc : 7500 - 1 ≤ sofCycles speed - 1 := by
      unfold sofCycles; split <;> omega
    have htlt : t < sofCycles speed - 1 := by omega
    have hne : t ≠ sofCycles speed - 1 := by omega
    have hcyc' : sofCycles speed ≤ 60000 := by
      unfold sofCycles; split <;> omega
    have hwrap : (t + 1) % 2^16 = t + 1 := by
      apply Nat.mod_eq_of_lt
      omega
    rw [sofRun_succ, sofEmitCount_succ]
    have hstep : sofStep speed true { fsm := SofFsm.idle, timer := t, frame := f, micro := u } =
        { fsm := SofFsm.idle, timer := t + 1, frame := f, micro := u } := by
      simp [sofStep, hne]
      omega
    rw [hstep]
    have := ih (t + 1) f u (by omega)
    simpa [sofValid] using this

lemma sofRun_add (speed : USBHostSpeed) (a b : Nat) (s : SofState) :
    sofRun speed (a + b) s = sofRun speed b (sofRun speed a s) := by
  induction a generalizing s with
  | zero => simp [sofRun]
  | succ a ih =>
    have h1 : a + 1 + b = (a + b) + 1 := by omega
    rw [h1, sofRun_succ, sofRun_succ, ih]

lemma sofEmitCount_add (speed : USBHostSpeed) (a b : Nat) (s : SofState) :
    sofEmitCount speed (a + b) s =
      sofEmitCount speed a s + sofEmitCount speed b (sofRun speed a s) := by
  induction a generalizing s with
  | zero => simp [sofRun, sofEmitCount]
  | succ a ih =>
    have h1 : a + 1 + b = (a + b) + 1 := by omega
    rw [h1, sofEmitCount_succ, sofEmitCount_succ, sofRun_succ, ih]
    omega

/-- Over one full SOF period (with the token generator ready), the controller
returns to its canonical mid-period state, emits exactly one SOF token, and
advances the frame/microframe counters by `sofAdvance`. -/
lemma sofPeriod (speed : USBHostSpeed) (f u : Nat) :
    sofRun speed (sofCycles speed) { fsm := SofFsm.idle, timer := 1, frame := f, micro := u } =
      { fsm := SofFsm.idle, timer := 1,
        frame := (sofAdvance speed f u).1, micro := (sofAdvance speed f u).2 } ∧
    sofEmitCount speed (sofCycles speed)
      { fsm := SofFsm.idle, timer := 1, frame := f, micro := u } = 1 := by
  have h2 : 2 ≤ sofCycles speed := by unfold sofCycles; split <;> omega
  have hseg := sofRun_idle_segment speed (sofCycles speed - 2) 1 f u (by omega)
  have hstep1 : sofStep speed true
      { fsm := SofFsm.idle, timer := sofCycles speed - 1, frame := f, micro := u } =
      { fsm := SofFsm.send, timer := 0,
        frame := (sofAdvance speed f u).1, micro := (sofAdvance speed f u).2 } := by
    by_cases hs : speed = USBHostSpeed.high
    · by_cases hu : u = 7 <;> simp [sofStep, sofAdvance, hs, hu]
    · simp [sofStep, sofAdvance, hs]
  have hstep2 : sofStep speed true
      { fsm := SofFsm.send, timer := 0,
        frame := (sofAdvance speed f u).1, micro := (sofAdvance speed f u).2 } =
      { fsm := SofFsm.idle, timer := 1,
        frame := (sofAdvance speed f u).1, micro := (sofAdvance speed f u).2 } := by
    simp [sofStep]
  have hone : ∀ s : SofState, sofRun speed 1 s = sofStep speed true s := fun s => rfl
  have honeC : ∀ s : SofState,
      sofEmitCount speed 1 s = if sofValid s then 1 else 0 := by
    intro s; simp [sofEmitCount]
  obtain ⟨hrun, hcount⟩ := hseg
  have hsplit : sofCycles speed = (sofCycles speed - 2) + 1 + 1 := by omega
  constructor
  · rw [hsplit, sofRun_add speed ((sofCycles speed - 2) + 1) 1,
      sofRun_add speed (sofCycles speed - 2) 1, hrun, hone, hone, hstep1, hstep2]
  · rw [hsplit, sofEmitCount_add speed ((sofCycles speed - 2) + 1) 1,
      sofEmitCount_add speed (sofCycles speed - 2) 1, hcount,
      sofRun_add speed (sofCycles speed - 2) 1, hrun, hone, hstep1, honeC, honeC]
    simp [sofValid]

/-- C7: the SOF controller emits one SOF token every 60000 cycles at FULL speed and
every 7500 cycles at HIGH speed (one per period, with the token generator ready); at
FULL speed the 11-bit frame number increments by 1 modulo 2^11 at each SOF while the
microframe counter is untouched; at HIGH speed the 3-bit microframe counter advances
modulo 8 at each SOF and the frame number increments modulo 2^11 exactly when the
microframe counter wraps from 7 to 0. -/
theorem sof_period_and_frame_advance :
    sofCycles USBHostSpeed.full = 60000 ∧
    sofCycles USBHostSpeed.high = 7500 ∧
    (∀ f u : Nat,
      sofRun USBHostSpeed.full 60000 { fsm := SofFsm.idle, timer := 1, frame := f, micro := u } =
        { fsm := SofFsm.idle, timer := 1, frame := (f + 1) % 2^11, micro := u } ∧
      sofEmitCount USBHostSpeed.full 60000
        { fsm := SofFsm.idle, timer := 1, frame := f, micro := u } = 1) ∧
    (∀ f u : Nat,
      sofRun USBHostSpeed.high 7500 { fsm := SofFsm.idle, timer := 1, frame := f, micro := u } =
        { fsm := SofFsm.idle, timer := 1,
          frame := if u = 7 then (f + 1) % 2^11 else f, micro := (u + 1) % 8 } ∧
      sofEmitCount USBHostSpeed.high 7500
        { fsm := SofFsm.idle, timer := 1, frame := f, micro := u } = 1) := by
  refine ⟨rfl, rfl, ?_, ?_⟩
  · intro f u
    have h := sofPeriod USBHostSpeed.full f u
    simpa [sofAdvance, sofCycles] using h
  · intro f u
    have h := sofPeriod USBHostSpeed.high f u
    by_cases hu : u = 7
    · simpa [sofAdvance, sofCycles, hu] using h
    · simpa [sofAdvance, sofCycles, hu] using h

-- ============================================================
-- Claim C2: setup packet serialisation
-- ============================================================

/-- C2: the setup-packet constructors serialise bit-exactly to 8 little-endian bytes:
`get_descriptor(DEVICE=1, 0, 0, 0x40)`, `set_address(0x12)` and `set_configuration(1)`
give exactly the byte lists stated in the spec. -/
theorem setup_payload_bit_exact :
    SetupPayload.get_descriptor 1 0 0 0x40 =
      [0x80, 0x06, 0x00, 0x01, 0x00, 0x00, 0x40, 0x00] ∧
    SetupPayload.set_address 0x12 =
      [0x00, 0x05, 0x12, 0x00, 0x00, 0x00, 0x00, 0x00] ∧
    SetupPayload.set_configuration 1 =
      [0x00, 0x09, 0x01, 0x00, 0x00, 0x00, 0x00, 0x00] := by
  refine ⟨?_, ?_, ?_⟩ <;> rfl

-- ============================================================
-- Claim C10: CBW construction invariants
-- ============================================================

lemma cbw_byte12 (tag : Nat) (cmd : ScsiCommand) :
    (cbwPackedValue tag cmd >>> 96) % 256 = cbwFlags cmd := by
  have hfl : cbwFlags cmd = 0x80 ∨ cbwFlags cmd = 0 := by
    unfold cbwFlags CBWFlags.DATA_IN CBWFlags.DATA_OUT; split <;> simp
  have hcl : cbwCdbLen cmd = 6 ∨ cbwCdbLen cmd = 10 := by
    unfold cbwCdbLen; split <;> simp
  have h1 : tag % 2^32 < 2^32 := Nat.mod_lt _ (by norm_num)
  have h2 : cmd.dataLen % 2^32 < 2^32 := Nat.mod_lt _ (by norm_num)
  have h3 : cmd.cdb % 2^128 < 2^128 := Nat.mod_lt _ (by norm_num)
  unfold cbwPackedValue CBW_SIGNATURE
  rw [Nat.shiftRight_eq_div_pow]
  generalize tag % 2^32 = t at *
  generalize cmd.dataLen % 2^32 = d at *
  generalize cmd.cdb % 2^128 = c at *
  generalize cbwFlags cmd = fl at *
  generalize cbwCdbLen cmd = cl at *
  norm_num at *
  omega

lemma cbw_byte14 (tag : Nat) (cmd : ScsiCommand) :
    (cbwPackedValue tag cmd >>> 112) % 256 = cbwCdbLen cmd := by
  have hfl : cbwFlags cmd = 0x80 ∨ cbwFlags cmd = 0 := by
    unfold cbwFlags CBWFlags.DATA_IN CBWFlags.DATA_OUT; split <;> simp
  have hcl : cbwCdbLen cmd = 6 ∨ cbwCdbLen cmd = 10 := by
    unfold cbwCdbLen; split <;> simp
  have h1 : tag % 2^32 < 2^32 := Nat.mod_lt _ (by norm_num)
  have h2 : cmd.dataLen % 2^32 < 2^32 := Nat.mod_lt _ (by norm_num)
  have h3 : cmd.cdb % 2^128 < 2^128 := Nat.mod_lt _ (by norm_num)
  unfold cbwPackedValue CBW_SIGNATURE
  rw [Nat.shiftRight_eq_div_pow]
  generalize tag % 2^32 = t at *
  generalize cmd.dataLen % 2^32 = d at *
  generalize cmd.cdb % 2^128 = c at *
  generalize cbwFlags cmd = fl at *
  generalize cbwCdbLen cmd = cl at *
  norm_num at *
  omega

lemma cbw_sig_bytes (tag : Nat) (cmd : ScsiCommand) :
    (cbwBytes tag cmd).take 4 = [0x55, 0x53, 0x42, 0x43] := by
  have hfl : cbwFlags cmd = 0x80 ∨ cbwFlags cmd = 0 := by
    unfold cbwFlags CBWFlags.DATA_IN CBWFlags.DATA_OUT; split <;> simp
  have hcl : cbwCdbLen cmd = 6 ∨ cbwCdbLen cmd = 10 := by
    unfold cbwCdbLen; split <;> simp
  have h1 : tag % 2^32 < 2^32 := Nat.mod_lt _ (by norm_num)
  have h2 : cmd.dataLen % 2^32 < 2^32 := Nat.mod_lt _ (by norm_num)
  have h3 : cmd.cdb % 2^128 < 2^128 := Nat.mod_lt _ (by norm_num)
  show [cbwPackedValue tag cmd >>> 0 % 256, cbwPackedValue tag cmd >>> 8 % 256,
        cbwPackedValue tag cmd >>> 16 % 256, cbwPackedValue tag cmd >>> 24 % 256] = _
  unfold cbwPackedValue CBW_SIGNATURE
  simp only [Nat.shiftRight_eq_div_pow]
  generalize tag % 2^32 = t at *
  generalize cmd.dataLen % 2^32 = d at *
  generalize cmd.cdb % 2^128 = c at *
  generalize cbwFlags cmd = fl at *
  generalize cbwCdbLen cmd = cl at *
  norm_num at *
  refine ⟨?_, ?_, ?_, ?_⟩ <;> omega

/-- C10: every CBW loaded by `SCSIBulkHost` is 31 bytes, carries the signature
0x43425355 in its first 4 (little-endian) bytes, has `bmCBWFlags` (byte 12) equal
to DATA_IN (0x80) exactly when `cmd.data_len > 0` and DATA_OUT (0x00) otherwise —
so the host never announces a host-to-device data phase — and has `bCBWCBLength`
(byte 14) equal to 6 when the CDB opcode is TEST_UNIT_READY or REQUEST_SENSE and
10 for every other opcode. -/
theorem cbw_construction_invariant (tag : Nat) (cmd : ScsiCommand) :
    (cbwBytes tag cmd).length = 31 ∧
    (cbwBytes tag cmd).take 4 = [0x55, 0x53, 0x42, 0x43] ∧
    (cbwBytes tag cmd)[12]? = some (if 0 < cmd.dataLen then 0x80 else 0x00) ∧
    (cbwBytes tag cmd)[14]? =
      some (if cmd.cdb % 256 = SCSIOpCode.TEST_UNIT_READY ∨
               cmd.cdb % 256 = SCSIOpCode.REQUEST_SENSE then 6 else 10) := by
  refine ⟨rfl, cbw_sig_bytes tag cmd, ?_, ?_⟩
  · have h12 : (cbwBytes tag cmd)[12]? = some (cbwPackedValue tag cmd >>> 96 % 256) := rfl
    rw [h12, cbw_byte12]
    rfl
  · have h14 : (cbwBytes tag cmd)[14]? = some (cbwPackedValue tag cmd >>> 112 % 256) := rfl
    rw [h14, cbw_byte14]
    rfl

-- ============================================================
-- SIE transfer engine (USBSIE in src/guh/usbh/sie.py)
-- ============================================================

/-- FSM states of the `USBSIE` transfer engine. -/
inductive SieFsm
  | reset
  | idle
  | drainRx
  | waitTxa
  | sendToken
  | waitTokenComplete
  | sendOutData
  | sendOutZlp
  | waitInData
  | waitHandshake
  | sendAck
  | ipdDrainTx
  deriving DecidableEq, Repr

/-- Depth of the SIE Rx FIFO (`self.fifo_depth = 64`). -/
def sieFifoDepth : Nat := 64

/-- Registers of the `USBSIE` state machine, together with the fill level of its
Rx FIFO submodule (the only FIFO state the claims depend on). -/
structure SieState where
  fsm         : SieFsm
  xfer        : Xfer
  rxLen       : Nat
  response    : TransferResponse
  txLen       : Nat
  txByteCount : Nat
  rxLevel     : Nat
  ipd         : Nat
  deriving DecidableEq, Repr

/-- Signals sampled by the `USBSIE` FSM in one cycle.  `rxPop` is the downstream
consumer's `ctrl.rxs.ready` (the Rx FIFO `r_en` outside DRAIN_RX); `rxNext` is
`receiver.stream.next`; `txFifoRdy` is `tx_fifo.r_rdy`; `txLevel` is
`tx_fifo.w_level`; the `det*` flags are the handshake detector outputs;
`tokenReady` is `sie_token.ready` and `tokenTxa` is `token_generator.txa`. -/
structure SieIn where
  resetActive      : Bool
  start            : Bool
  xferIn           : Xfer
  txLevel          : Nat
  rxPop            : Bool
  rxNext           : Bool
  readyForResponse : Bool
  crcMismatch      : Bool
  detAck           : Bool
  detNak           : Bool
  detStall         : Bool
  rxa              : Bool
  sofTxa           : Bool
  tokenReady       : Bool
  tokenTxa         : Bool
  txStreamReady    : Bool
  txFifoRdy        : Bool
  speedHigh        : Bool
  deriving DecidableEq, Repr

/-- `_XFER_IPD_FS` / `_XFER_IPD_HS` inter-packet delay selection. -/
def sieIpdMax (speedHigh : Bool) : Nat :=
  if speedHigh then 100 else 1000

/-- Whether a received byte is pushed into the Rx FIFO this cycle: only in
WAIT_IN_DATA, on `receiver.stream.next`, and only when the FIFO has room. -/
def siePushes (s : SieState) (i : SieIn) : Bool :=
  s.fsm = SieFsm.waitInData ∧ i.rxNext ∧ s.rxLevel < sieFifoDepth

/-- Whether a received byte is dropped this cycle (arrives while the FIFO is full). -/
def sieDrops (s : SieState) (i : SieIn) : Bool :=
  s.fsm = SieFsm.waitInData ∧ i.rxNext ∧ sieFifoDepth ≤ s.rxLevel

/-- Whether a byte arrives from the receiver this cycle while in WAIT_IN_DATA. -/
def sieReceives (s : SieState) (i : SieIn) : Bool :=
  s.fsm = SieFsm.waitInData ∧ i.rxNext

/-- Combinational `handshake_generator.issue_ack`: asserted exactly in SEND_ACK. -/
def sieIssueAck (s : SieState) : Bool :=
  s.fsm = SieFsm.sendAck

/-- Combinational `sie_token.valid`: the SIE presents its token to the token
generator exactly while in SEND_TOKEN. -/
def sieTokenValid (s : SieState) : Bool :=
  s.fsm = SieFsm.sendToken

/-- New Rx FIFO level after one cycle: a push (WAIT_IN_DATA byte with room) and a
pop (DRAIN_RX drain, or the consumer's `rxs.ready` elsewhere) may both happen. -/
def sieNextRxLevel (s : SieState) (i : SieIn) : Nat :=
  let afterPush := if siePushes s i then s.rxLevel + 1 else s.rxLevel
  let popping := if s.fsm = SieFsm.drainRx then 0 < s.rxLevel else i.rxPop ∧ 0 < s.rxLevel
  if popping then afterPush - 1 else afterPush

/-- One clock cycle of the `USBSIE` FSM.  Follows `USBSIE.elaborate` state by
state; within WAIT_IN_DATA / WAIT_HANDSHAKE the textually later `m.If` blocks
override the earlier ones, which gives the timeout/stall/nak/crc conditions
priority over the data-path updates, exactly as in the source. -/
def sieStep (s : SieState) (i : SieIn) : SieState :=
  let level := sieNextRxLevel s i
  match s.fsm with
  | SieFsm.reset =>
    if ¬i.resetActive then { s with fsm := SieFsm.idle, rxLevel := level }
    else { s with rxLevel := level }
  | SieFsm.idle =>
    if i.start then
      { s with fsm := SieFsm.drainRx, xfer := i.xferIn, txByteCount := 0, rxLen := 0,
               response := TransferResponse.none, txLen := i.txLevel % 256, rxLevel := level }
    else { s with rxLevel := level }
  | SieFsm.drainRx =>
    if s.rxLevel = 0 then { s with fsm := SieFsm.waitTxa, rxLevel := level }
    else { s with rxLevel := level }
  | SieFsm.waitTxa =>
    if i.sofTxa then { s with fsm := SieFsm.sendToken, rxLevel := level }
    else { s with rxLevel := level }
  | SieFsm.sendToken =>
    if i.tokenReady then { s with fsm := SieFsm.waitTokenComplete, rxLevel := level }
    else { s with rxLevel := level }
  | SieFsm.waitTokenComplete =>
    if i.tokenTxa then
      if s.xfer.ttype = TransferType.tin then
        { s with fsm := SieFsm.waitInData, rxLevel := level }
      else if s.txLen ≠ 0 then
        { s with fsm := SieFsm.sendOutData, rxLevel := level }
      else
        { s with fsm := SieFsm.sendOutZlp, rxLevel := level }
    else { s with rxLevel := level }
  | SieFsm.sendOutData =>
    if i.txStreamReady ∧ i.txFifoRdy then
      if s.txByteCount + 1 = s.txLen then
        { s with fsm := SieFsm.waitHandshake, txByteCount := 0, rxLevel := level }
      else
        { s with txByteCount := (s.txByteCount + 1) % 2^16, rxLevel := level }
    else { s with rxLevel := level }
  | SieFsm.sendOutZlp =>
    { s with fsm := SieFsm.waitHandshake, rxLevel := level }
  | SieFsm.waitInData =>
    let respData := if i.rxNext ∧ sieFifoDepth ≤ s.rxLevel
                    then TransferResponse.rxOverflow else s.response
    let resp := if ¬i.rxa then TransferResponse.timeout
                else if i.detStall then TransferResponse.stall
                else if i.detNak then TransferResponse.nak
                else if i.crcMismatch then TransferResponse.crcError
                else respData
    let rxLen := if i.rxNext then (s.rxLen + 1) % 256 else s.rxLen
    let fsm := if ¬i.rxa ∨ i.detStall ∨ i.detNak ∨ i.crcMismatch then SieFsm.ipdDrainTx
               else if i.readyForResponse then
                 (if s.response = TransferResponse.rxOverflow then SieFsm.ipdDrainTx
                  else SieFsm.sendAck)
               else SieFsm.waitInData
    { s with fsm := fsm, response := resp, rxLen := rxLen, rxLevel := level }
  | SieFsm.waitHandshake =>
    let resp := if ¬i.rxa then TransferResponse.timeout
                else if i.detStall then TransferResponse.stall
                else if i.detNak then TransferResponse.nak
                else if i.detAck then TransferResponse.ack
                else s.response
    let fsm := if ¬i.rxa ∨ i.detStall ∨ i.detNak ∨ i.detAck then SieFsm.ipdDrainTx
               else SieFsm.waitHandshake
    { s with fsm := fsm, response := resp, rxLevel := level }
  | SieFsm.sendAck =>
    { s with fsm := SieFsm.ipdDrainTx, response := TransferResponse.ack, rxLevel := level }
  | SieFsm.ipdDrainTx =>
    if s.ipd = sieIpdMax i.speedHigh - 1 ∧ ¬i.txFifoRdy then
      { s with fsm := SieFsm.idle, ipd := 0, rxLevel := level }
    else { s with ipd := (s.ipd + 1) % 2^10, rxLevel := level }

/-- Run the SIE over a list of per-cycle inputs. -/
def sieRun (s : SieState) : List SieIn → SieState
  | [] => s
  | i :: rest => sieRun (sieStep s i) rest

/-- Number of bytes received (offered by the packet receiver) during a run. -/
def sieReceivedCount (s : SieState) : List SieIn → Nat
  | [] => 0
  | i :: rest =>
    (if sieReceives s i then 1 else 0) + sieReceivedCount (sieStep s i) rest

/-- Number of bytes actually pushed into the Rx FIFO during a run. -/
def siePushedCount (s : SieState) : List SieIn → Nat
  | [] => 0
  | i :: rest =>
    (if siePushes s i then 1 else 0) + siePushedCount (sieStep s i) rest

/-- Number of bytes dropped (FIFO full) during a run. -/
def sieDroppedCount (s : SieState) : List SieIn → Nat
  | [] => 0
  | i :: rest =>
    (if sieDrops s i then 1 else 0) + sieDroppedCount (sieStep s i) rest

/-- Number of accepted `start` strobes (new transactions) during a run. -/
def sieStartCount (s : SieState) : List SieIn → Nat
  | [] => 0
  | i :: rest =>
    (if s.fsm = SieFsm.idle ∧ i.start then 1 else 0) + sieStartCount (sieStep s i) rest

-- ============================================================
-- Claim C1: rx_len accounting
-- ============================================================

lemma sieStep_rxLen (s : SieState) (i : SieIn)
    (hs : ¬(s.fsm = SieFsm.idle ∧ i.start = true)) (h : s.rxLen < 256) :
    (sieStep s i).rxLen = (s.rxLen + (if sieReceives s i then 1 else 0)) % 256 := by
  rcases s with ⟨fsm, xf, rl, rsp, tl, tbc, lvl, ip⟩
  simp only at h
  cases fsm <;>
    simp_all [sieStep, sieReceives, sieNextRxLevel] <;>
    (try split_ifs) <;>
    (try simp_all) <;>
    omega

lemma sieStep_rxLen_lt (s : SieState) (i : SieIn) (h : s.rxLen < 256) :
    (sieStep s i).rxLen < 256 := by
  rcases s with ⟨fsm, xf, rl, rsp, tl, tbc, lvl, ip⟩
  simp only at h
  cases fsm <;>
    simp_all [sieStep, sieNextRxLevel] <;>
    (try split_ifs) <;>
    (try simp_all) <;>
    omega

lemma sieRun_rxLen (tr : List SieIn) : ∀ s : SieState, s.rxLen < 256 →
    sieStartCount s tr = 0 →
    (sieRun s tr).rxLen = (s.rxLen + sieReceivedCount s tr) % 256 := by
  induction tr with
  | nil =>
    intro s h _
    simp [sieRun, sieReceivedCount, Nat.mod_eq_of_lt h]
  | cons i rest ih =>
    intro s h hns
    have hnostart : ¬(s.fsm = SieFsm.idle ∧ i.start = true) := by
      intro hc
      simp [sieStartCount, hc.1, hc.2] at hns
    have hns' : sieStartCount (sieStep s i) rest = 0 := by
      simp only [sieStartCount] at hns
      omega
    have h' := sieStep_rxLen_lt s i h
    have hstep := sieStep_rxLen s i hnostart h
    simp only [sieRun, sieReceivedCount]
    rw [ih (sieStep s i) h' hns', hstep]
    by_cases hr : sieReceives s i = true
    · simp only [hr, if_true]
      omega
    · simp only [hr, if_false]
      omega

lemma sieRun_received_split (tr : List SieIn) : ∀ s : SieState,
    sieReceivedCount s tr = siePushedCount s tr + sieDroppedCount s tr := by
  induction tr with
  | nil => intro s; simp [sieReceivedCount, siePushedCount, sieDroppedCount]
  | cons i rest ih =>
    intro s
    simp only [sieReceivedCount, siePushedCount, sieDroppedCount, ih (sieStep s i)]
    have : (if sieReceives s i then 1 else 0) =
        (if siePushes s i then 1 else 0) + (if sieDrops s i then (1:Nat) else 0) := by
      simp only [sieReceives, siePushes, sieDrops]
      by_cases h1 : s.fsm = SieFsm.waitInData <;>
        by_cases h2 : i.rxNext <;>
        by_cases h3 : s.rxLevel < sieFifoDepth <;>
        simp_all <;> omega
    omega

/-- Quiescent input cycle for the SIE: no PHY or upper-layer events. -/
def sieInQuiet : SieIn :=
  { resetActive := false, start := false,
    xferIn := { ttype := TransferType.tin, devAddr := 0, epAddr := 0, dataPid := true },
    txLevel := 0, rxPop := false, rxNext := false, readyForResponse := false,
    crcMismatch := false, detAck := false, detNak := false, detStall := false,
    rxa := true, sofTxa := false, tokenReady := false, tokenTxa := false,
    txStreamReady := false, txFifoRdy := false, speedHigh := false }

/-- SIE state sitting in IDLE with all registers cleared. -/
def sieIdleState : SieState :=
  { fsm := SieFsm.idle,
    xfer := { ttype := TransferType.tin, devAddr := 0, epAddr := 0, dataPid := true },
    rxLen := 0, response := TransferResponse.none, txLen := 0, txByteCount := 0,
    rxLevel := 0, ipd := 0 }

/-- An IN transaction in which the device sends 65 bytes while the consumer never
drains the 64-deep Rx FIFO: the 65th byte is dropped, and the transaction then
terminates via `ready_for_response`. -/
def sieOverflowTrace : List SieIn :=
  [{ sieInQuiet with
      start := true,
      xferIn := { ttype := TransferType.tin, devAddr := 5, epAddr := 1, dataPid := true } },
   sieInQuiet,
   { sieInQuiet with sofTxa := true },
   { sieInQuiet with tokenReady := true },
   { sieInQuiet with tokenTxa := true }] ++
  List.replicate 65 { sieInQuiet with rxNext := true } ++
  [{ sieInQuiet with readyForResponse := true }]

/-- C1 counterexample: in the overflow transaction above the terminal `rx_len` is 65
while only 64 bytes were pushed into the Rx FIFO — the dropped byte IS counted by
`rx_len`, contradicting the claim that dropped bytes are not counted. -/
theorem sie_rx_len_counts_dropped_byte :
    (sieRun sieIdleState sieOverflowTrace).fsm = SieFsm.ipdDrainTx ∧
    (sieRun sieIdleState sieOverflowTrace).response = TransferResponse.rxOverflow ∧
    (sieRun sieIdleState sieOverflowTrace).rxLen = 65 ∧
    siePushedCount sieIdleState sieOverflowTrace = 64 ∧
    sieDroppedCount sieIdleState sieOverflowTrace = 1 ∧
    ¬((sieRun sieIdleState sieOverflowTrace).rxLen =
      siePushedCount sieIdleState sieOverflowTrace) := by
  decide

/-- C1 (amended): when a transaction reaches its terminal response the latched
`rx_len` is at most 255 and equals, modulo 256, the number of bytes *received*
from the device during the transaction — bytes dropped because the Rx FIFO was
full are counted as well; whenever no byte is dropped, `rx_len` equals the number
of bytes pushed into the Rx FIFO (modulo 256). -/
theorem sie_rx_len_counts_received (s : SieState) (tr : List SieIn)
    (h0 : s.rxLen < 256) (hns : sieStartCount s tr = 0) :
    (sieRun s tr).rxLen = (s.rxLen + sieReceivedCount s tr) % 256 ∧
    (sieRun s tr).rxLen ≤ 255 ∧
    sieReceivedCount s tr = siePushedCount s tr + sieDroppedCount s tr ∧
    (sieDroppedCount s tr = 0 →
      (sieRun s tr).rxLen = (s.rxLen + siePushedCount s tr) % 256) := by
  have h1 := sieRun_rxLen tr s h0 hns
  have h2 := sieRun_received_split tr s
  refine ⟨h1, ?_, h2, ?_⟩
  · rw [h1]
    have := Nat.mod_lt (s.rxLen + sieReceivedCount s tr) (show 0 < 256 by norm_num)
    omega
  · intro hd
    rw [h1, h2, hd]
    simp

/-- Witness for `sie_rx_len_counts_received` at a concrete transaction: the SIE in
WAIT_IN_DATA receiving one byte. -/
theorem sie_rx_len_counts_received_witness :
    (sieRun { sieIdleState with fsm := SieFsm.waitInData }
        [{ sieInQuiet with rxNext := true }]).rxLen =
      ({ sieIdleState with fsm := SieFsm.waitInData } : SieState).rxLen +
        sieReceivedCount { sieIdleState with fsm := SieFsm.waitInData }
          [{ sieInQuiet with rxNext := true }] ∧
    (sieRun { sieIdleState with fsm := SieFsm.waitInData }
        [{ sieInQuiet with rxNext := true }]).rxLen ≤ 255 := by
  have h := sie_rx_len_counts_received { sieIdleState with fsm := SieFsm.waitInData }
    [{ sieInQuiet with rxNext := true }] (by decide) (by decide)
  exact ⟨by rw [h.1]; decide, h.2.1⟩

-- ============================================================
-- Claim C5: Rx overflow handling and host-side ACK
-- ============================================================

/-- Scans a run: `true` iff the SIE enters SEND_ACK before it next enters
IPD_DRAIN_TX (i.e. before the current transaction terminates). -/
def sieAcksBeforeIpd : SieState → List SieIn → Bool
  | _, [] => false
  | s, i :: rest =>
    let s2 := sieStep s i
    if s2.fsm = SieFsm.sendAck then true
    else if s2.fsm = SieFsm.ipdDrainTx then false
    else sieAcksBeforeIpd s2 rest

lemma sie_overflow_step_inv (s : SieState) (i : SieIn)
    (h1 : s.fsm = SieFsm.waitInData) (h2 : s.response = TransferResponse.rxOverflow) :
    ((sieStep s i).fsm = SieFsm.waitInData ∧
     (sieStep s i).response = TransferResponse.rxOverflow) ∨
    (sieStep s i).fsm = SieFsm.ipdDrainTx := by
  rcases s with ⟨fsm, xf, rl, rsp, tl, tbc, lvl, ip⟩
  simp only at h1 h2
  subst h1; subst h2
  simp only [sieStep]
  split_ifs <;> simp_all

lemma sie_no_ack_while_overflow (tr : List SieIn) : ∀ s : SieState,
    s.fsm = SieFsm.waitInData → s.response = TransferResponse.rxOverflow →
    sieAcksBeforeIpd s tr = false := by
  induction tr with
  | nil => intro s _ _; rfl
  | cons i rest ih =>
    intro s h1 h2
    rcases sie_overflow_step_inv s i h1 h2 with ⟨hf, hr⟩ | hf
    · have hna : ¬(sieStep s i).fsm = SieFsm.sendAck := by rw [hf]; intro hc; cases hc
      have hni : ¬(sieStep s i).fsm = SieFsm.ipdDrainTx := by rw [hf]; intro hc; cases hc
      simp only [sieAcksBeforeIpd, if_neg hna, if_neg hni]
      exact ih (sieStep s i) hf hr
    · have hna : ¬(sieStep s i).fsm = SieFsm.sendAck := by rw [hf]; intro hc; cases hc
      simp only [sieAcksBeforeIpd, if_neg hna, if_pos hf]

/-- C5: (a) if a byte arrives in WAIT_IN_DATA while the Rx FIFO is full (and no
other terminal event fires that cycle), the byte is not pushed, the response is
latched RX_OVERFLOW, and the SIE stays in WAIT_IN_DATA; (b) once the response is
RX_OVERFLOW, the SIE never passes through SEND_ACK before terminating in
IPD_DRAIN_TX — the device sees no host-side ACK; (c) a transaction without
overflow whose data packet completes cleanly (`ready_for_response` with no
CRC/NAK/STALL/timeout) proceeds to SEND_ACK; (d) SEND_ACK asserts `issue_ack`
and latches the ACK response. -/
theorem sie_overflow_skips_ack_and_clean_in_acks :
    (∀ (s : SieState) (i : SieIn),
      s.fsm = SieFsm.waitInData → sieFifoDepth ≤ s.rxLevel → i.rxNext = true →
      i.readyForResponse = false → i.crcMismatch = false → i.detNak = false →
      i.detStall = false → i.rxa = true →
      ¬(siePushes s i = true) ∧
      (sieStep s i).response = TransferResponse.rxOverflow ∧
      (sieStep s i).fsm = SieFsm.waitInData) ∧
    (∀ (s : SieState) (tr : List SieIn),
      s.fsm = SieFsm.waitInData → s.response = TransferResponse.rxOverflow →
      sieAcksBeforeIpd s tr = false) ∧
    (∀ (s : SieState) (i : SieIn),
      s.fsm = SieFsm.waitInData → ¬(s.response = TransferResponse.rxOverflow) →
      i.readyForResponse = true → i.crcMismatch = false → i.detNak = false →
      i.detStall = false → i.rxa = true →
      (sieStep s i).fsm = SieFsm.sendAck) ∧
    (∀ (s : SieState) (i : SieIn),
      s.fsm = SieFsm.sendAck →
      sieIssueAck s = true ∧
      (sieStep s i).fsm = SieFsm.ipdDrainTx ∧
      (sieStep s i).response = TransferResponse.ack) := by
  refine ⟨?_, ?_, ?_, ?_⟩
  · intro s i h1 h2 h3 h4 h5 h6 h7 h8
    rcases s with ⟨fsm, xf, rl, rsp, tl, tbc, lvl, ip⟩
    simp only at h1 h2
    subst h1
    refine ⟨?_, ?_, ?_⟩ <;>
      simp_all [sieStep, siePushes] <;> omega
  · intro s tr h1 h2
    exact sie_no_ack_while_overflow tr s h1 h2
  · intro s i h1 h2 h3 h4 h5 h6 h7
    rcases s with ⟨fsm, xf, rl, rsp, tl, tbc, lvl, ip⟩
    simp only at h1 h2
    subst h1
    simp_all [sieStep]
  · intro s i h1
    rcases s with ⟨fsm, xf, rl, rsp, tl, tbc, lvl, ip⟩
    simp only at h1
    subst h1
    simp_all [sieStep, sieIssueAck]

/-- Witness for `sie_overflow_skips_ack_and_clean_in_acks` at concrete states:
a full-FIFO byte arrival, an overflow run, a clean packet end, and a SEND_ACK cycle. -/
theorem sie_overflow_skips_ack_witness :
    (¬(siePushes { sieIdleState with fsm := SieFsm.waitInData, rxLevel := 64 }
        { sieInQuiet with rxNext := true } = true)) ∧
    sieAcksBeforeIpd
      { sieIdleState with
          fsm := SieFsm.waitInData,
          response := TransferResponse.rxOverflow }
      [sieInQuiet, { sieInQuiet with readyForResponse := true }] = false ∧
    (sieStep { sieIdleState with fsm := SieFsm.waitInData }
      { sieInQuiet with readyForResponse := true }).fsm = SieFsm.sendAck ∧
    sieIssueAck { sieIdleState with fsm := SieFsm.sendAck } = true := by
  have h := sie_overflow_skips_ack_and_clean_in_acks
  refine ⟨?_, ?_, ?_, ?_⟩
  · exact (h.1 { sieIdleState with fsm := SieFsm.waitInData, rxLevel := 64 }
      { sieInQuiet with rxNext := true } rfl (by decide) rfl rfl rfl rfl rfl rfl).1
  · exact h.2.1 _ _ rfl rfl
  · exact h.2.2.1 { sieIdleState with fsm := SieFsm.waitInData }
      { sieInQuiet with readyForResponse := true } rfl (by decide) rfl rfl rfl rfl rfl
  · exact (h.2.2.2 { sieIdleState with fsm := SieFsm.sendAck } sieInQuiet rfl).1

-- ============================================================
-- Claim C6: transactions and the SOF txa window
-- ============================================================

/-- Composition of the SIE with its SOF controller: the SIE's `sofTxa`/`rxa`
inputs are driven by the SOF controller's combinational window outputs, exactly
as wired in `USBSIE.elaborate`. -/
def sieWithSofStep (speed : USBHostSpeed) (ready : Bool)
    (p : SieState × SofState) (i : SieIn) : SieState × SofState :=
  (sieStep p.1 { i with sofTxa := sofTxa speed p.2, rxa := sofRxa speed p.2 },
   sofStep speed ready p.2)

/-- C6 counterexample: with the SOF timer at 0 (outside the txa window, which opens
at `tx_to_tx_min`), a `start` strobe makes the SIE leave IDLE immediately — the
SIE does NOT "only leave IDLE during the txa window". -/
theorem sie_leaves_idle_outside_txa_window :
    sofTxa USBHostSpeed.full { fsm := SofFsm.idle, timer := 0, frame := 0, micro := 0 } =
      false ∧
    (sieWithSofStep USBHostSpeed.full true
      (sieIdleState, { fsm := SofFsm.idle, timer := 0, frame := 0, micro := 0 })
      { sieInQuiet with start := true }).1.fsm = SieFsm.drainRx := by
  decide

/-- C6 (amended): the SIE may leave IDLE (capturing parameters and draining the Rx
FIFO) at any time after `start`, but the transition into SEND_TOKEN — the state in
which the SETUP/IN/OUT token is presented to the token generator — happens only
from WAIT_TXA and only in a cycle where the SOF controller's txa window
`[tx_to_tx_min, tx_to_tx_max)` is open; hence no token for a transfer begins
outside that window. -/
theorem sie_token_only_in_txa_window (speed : USBHostSpeed) (ready : Bool)
    (p : SieState × SofState) (i : SieIn)
    (h : (sieWithSofStep speed ready p i).1.fsm = SieFsm.sendToken) :
    p.1.fsm = SieFsm.sendToken ∨
    (p.1.fsm = SieFsm.waitTxa ∧
     txToTxMin speed ≤ p.2.timer ∧ p.2.timer < txToTxMax speed) := by
  rcases p with ⟨s, st⟩
  rcases s with ⟨fsm, xf, rl, rsp, tl, tbc, lvl, ip⟩
  simp only [sieWithSofStep] at h
  cases fsm <;>
    simp_all [sieStep, sofTxa] <;>
    (try split_ifs at h) <;>
    simp_all

/-- Witness for `sie_token_only_in_txa_window`: the SIE in WAIT_TXA with the FS SOF
timer inside the window does advance to SEND_TOKEN. -/
theorem sie_token_only_in_txa_window_witness :
    ({ sieIdleState with fsm := SieFsm.waitTxa } : SieState).fsm = SieFsm.sendToken ∨
    (({ sieIdleState with fsm := SieFsm.waitTxa } : SieState).fsm = SieFsm.waitTxa ∧
     txToTxMin USBHostSpeed.full ≤
       ({ fsm := SofFsm.idle, timer := 12000, frame := 0, micro := 0 } : SofState).timer ∧
     ({ fsm := SofFsm.idle, timer := 12000, frame := 0, micro := 0 } : SofState).timer <
       txToTxMax USBHostSpeed.full) :=
  sie_token_only_in_txa_window USBHostSpeed.full true
    ({ sieIdleState with fsm := SieFsm.waitTxa },
     { fsm := SofFsm.idle, timer := 12000, frame := 0, micro := 0 })
    sieInQuiet (by decide)

-- ============================================================
-- Enumerator (USBHostEnumerator in src/guh/usbh/enumerator.py)
-- ============================================================

/-- FSM states of `USBHostEnumerator`: `gd1*` = stage 1 (GET_DESCRIPTOR 8 bytes),
`sa*` = stage 2 (SET_ADDRESS), `gdf*` = stage 3 (GET_DESCRIPTOR 18 bytes),
`gc*` = stage 4 (GET_DESCRIPTOR CONFIGURATION), `sc*` = stage 5 (SET_CONFIGURATION). -/
inductive EnumFsm
  | initReset
  | waitSieReady
  | gd1Load
  | gd1Xfer
  | gd1WaitSetup
  | gd1In
  | gd1WaitIn
  | gd1Status
  | gd1WaitStatus
  | gd1SetMps
  | gd1Complete
  | saLoad
  | saXfer
  | saWaitSetup
  | saStatus
  | saWaitStatus
  | saUpdateAddr
  | gdfLoad
  | gdfXfer
  | gdfWaitSetup
  | gdfIn
  | gdfWaitIn
  | gdfStatus
  | gdfWaitStatus
  | gdfComplete
  | gcLoad
  | gcXfer
  | gcWaitSetup
  | gcIn
  | gcWaitIn
  | gcStatus
  | gcWaitStatus
  | gcComplete
  | scLoad
  | scXfer
  | scWaitSetup
  | scStatus
  | scWaitStatus
  | enumerationComplete
  | idle
  deriving DecidableEq, Repr

/-- Registers of `USBHostEnumerator.elaborate`. -/
structure EnumState where
  fsm            : EnumFsm
  currentDevAddr : Nat
  enumRetry      : Nat
  resetTriggered : Bool
  setupByteIx    : Nat
  maxPacketSize  : Nat
  lastPacketByte : Nat
  enumerated     : Bool
  deriving DecidableEq, Repr

/-- Signals sampled by the enumerator FSM in one cycle: the SIE status fields,
the Rx stream, the Tx FIFO handshake, and whether the reset controller has
produced a known speed. -/
structure EnumIn where
  speedKnown : Bool
  sieIdle    : Bool
  response   : TransferResponse
  rxLen      : Nat
  sofFrame   : Nat
  rxsValid   : Bool
  rxsPayload : Nat
  txsReady   : Bool
  deriving DecidableEq, Repr

/-- Combinational `sie.ctrl.bus_reset` strobe: driven high in INIT-RESET while
`reset_triggered` is still low. -/
def enumBusReset (s : EnumState) : Bool :=
  s.fsm = EnumFsm.initReset ∧ ¬s.resetTriggered

/-- `make_load_setup_state`: clock 8 setup-ROM bytes into the Tx FIFO. -/
def enumLoadSetup (s : EnumState) (i : EnumIn) (next : EnumFsm) : EnumState :=
  if i.txsReady then
    if s.setupByteIx = 7 then { s with setupByteIx := 0, fsm := next }
    else { s with setupByteIx := (s.setupByteIx + 1) % 8 }
  else s

/-- `make_setup_xfer_state` and the single-state strobe pattern shared by
`make_in_data_states` / `make_status_phase_states` token-issuing states: wait for
the SIE to be idle, strobe the transfer, advance. -/
def enumStrobeXfer (s : EnumState) (i : EnumIn) (next : EnumFsm) : EnumState :=
  if i.sieIdle then { s with fsm := next } else s

/-- `make_wait_ack_state` with a retry signal (stages 1, 3, 4): NAK/TIMEOUT bumps
`enum_retry`; once it has reached 3 the enumerator gives up and bus-resets. -/
def enumWaitAckRetry (s : EnumState) (i : EnumIn) (onAck retryFrom : EnumFsm) : EnumState :=
  if i.sieIdle then
    match i.response with
    | TransferResponse.ack => { s with enumRetry := 0, fsm := onAck }
    | TransferResponse.nak | TransferResponse.timeout =>
      if 3 ≤ s.enumRetry then { s with enumRetry := 0, fsm := EnumFsm.initReset }
      else { s with enumRetry := (s.enumRetry + 1) % 4, fsm := retryFrom }
    | _ => s
  else s

/-- `make_wait_ack_state` without a retry signal (stages 2, 5): NAK/TIMEOUT goes
straight to the error state. -/
def enumWaitAckNoRetry (s : EnumState) (i : EnumIn) (onAck onError : EnumFsm) : EnumState :=
  if i.sieIdle then
    match i.response with
    | TransferResponse.ack => { s with fsm := onAck }
    | TransferResponse.nak | TransferResponse.timeout => { s with fsm := onError }
    | _ => s
  else s

/-- Wait state of `make_in_data_states`: latch the last received byte; on ACK (or
any non-NAK terminal) move on, on NAK re-issue the IN token. -/
def enumInDataWait (s : EnumState) (i : EnumIn) (loadSt nextSt : EnumFsm) : EnumState :=
  let s1 := if i.rxsValid then { s with lastPacketByte := i.rxsPayload } else s
  if i.sieIdle then
    match i.response with
    | TransferResponse.ack => { s1 with fsm := nextSt }
    | TransferResponse.nak => { s1 with fsm := loadSt }
    | _ => { s1 with fsm := nextSt }
  else s1

/-- Wait state of `make_multi_packet_in_states`: on ACK, continue with another IN
token iff `rx_len == max_packet_size`, otherwise finish; on NAK retry; any other
response finishes. -/
def enumMultiInWait (s : EnumState) (i : EnumIn) (inSt nextSt : EnumFsm) : EnumState :=
  if i.sieIdle then
    match i.response with
    | TransferResponse.ack =>
      if i.rxLen = s.maxPacketSize then { s with fsm := inSt } else { s with fsm := nextSt }
    | TransferResponse.nak => { s with fsm := inSt }
    | _ => { s with fsm := nextSt }
  else s

/-- Wait state of `make_status_phase_states`: ACK completes, NAK retries the status
transaction, TIMEOUT is a hard error, anything else keeps waiting. -/
def enumStatusWait (s : EnumState) (i : EnumIn)
    (statusSt nextSt onTimeout : EnumFsm) : EnumState :=
  if i.sieIdle then
    match i.response with
    | TransferResponse.ack => { s with fsm := nextSt }
    | TransferResponse.nak => { s with fsm := statusSt }
    | TransferResponse.timeout => { s with fsm := onTimeout }
    | _ => s
  else s

/-- One clock cycle of the `USBHostEnumerator` FSM.  `devAddress` is the
construction parameter `device_address` (default 0x12). -/
def enumStep (devAddress : Nat) (s : EnumState) (i : EnumIn) : EnumState :=
  match s.fsm with
  | EnumFsm.initReset =>
    if i.speedKnown then
      { s with enumRetry := 0, resetTriggered := false, fsm := EnumFsm.waitSieReady }
    else { s with resetTriggered := true }
  | EnumFsm.waitSieReady =>
    if i.sieIdle ∧ i.sofFrame &&& 0x3f = 0x3f then { s with fsm := EnumFsm.gd1Load }
    else s
  | EnumFsm.gd1Load => enumLoadSetup s i EnumFsm.gd1Xfer
  | EnumFsm.gd1Xfer => enumStrobeXfer s i EnumFsm.gd1WaitSetup
  | EnumFsm.gd1WaitSetup => enumWaitAckRetry s i EnumFsm.gd1In EnumFsm.gd1Load
  | EnumFsm.gd1In => enumStrobeXfer s i EnumFsm.gd1WaitIn
  | EnumFsm.gd1WaitIn => enumInDataWait s i EnumFsm.gd1In EnumFsm.gd1Status
  | EnumFsm.gd1Status => enumStrobeXfer s i EnumFsm.gd1WaitStatus
  | EnumFsm.gd1WaitStatus =>
    enumStatusWait s i EnumFsm.gd1Status EnumFsm.gd1SetMps EnumFsm.initReset
  | EnumFsm.gd1SetMps =>
    { s with maxPacketSize := s.lastPacketByte, fsm := EnumFsm.gd1Complete }
  | EnumFsm.gd1Complete => { s with enumRetry := 0, fsm := EnumFsm.saLoad }
  | EnumFsm.saLoad => enumLoadSetup s i EnumFsm.saXfer
  | EnumFsm.saXfer => enumStrobeXfer s i EnumFsm.saWaitSetup
  | EnumFsm.saWaitSetup => enumWaitAckNoRetry s i EnumFsm.saStatus EnumFsm.initReset
  | EnumFsm.saStatus => enumStrobeXfer s i EnumFsm.saWaitStatus
  | EnumFsm.saWaitStatus =>
    enumStatusWait s i EnumFsm.saStatus EnumFsm.saUpdateAddr EnumFsm.initReset
  | EnumFsm.saUpdateAddr =>
    { s with currentDevAddr := devAddress, enumRetry := 0, fsm := EnumFsm.gdfLoad }
  | EnumFsm.gdfLoad => enumLoadSetup s i EnumFsm.gdfXfer
  | EnumFsm.gdfXfer => enumStrobeXfer s i EnumFsm.gdfWaitSetup
  | EnumFsm.gdfWaitSetup => enumWaitAckRetry s i EnumFsm.gdfIn EnumFsm.gdfLoad
  | EnumFsm.gdfIn => enumStrobeXfer s i EnumFsm.gdfWaitIn
  | EnumFsm.gdfWaitIn => enumMultiInWait s i EnumFsm.gdfIn EnumFsm.gdfStatus
  | EnumFsm.gdfStatus => enumStrobeXfer s i EnumFsm.gdfWaitStatus
  | EnumFsm.gdfWaitStatus =>
    enumStatusWait s i EnumFsm.gdfStatus EnumFsm.gdfComplete EnumFsm.initReset
  | EnumFsm.gdfComplete => { s with enumRetry := 0, fsm := EnumFsm.gcLoad }
  | EnumFsm.gcLoad => enumLoadSetup s i EnumFsm.gcXfer
  | EnumFsm.gcXfer => enumStrobeXfer s i EnumFsm.gcWaitSetup
  | EnumFsm.gcWaitSetup => enumWaitAckRetry s i EnumFsm.gcIn EnumFsm.gcLoad
  | EnumFsm.gcIn => enumStrobeXfer s i EnumFsm.gcWaitIn
  | EnumFsm.gcWaitIn => enumMultiInWait s i EnumFsm.gcIn EnumFsm.gcStatus
  | EnumFsm.gcStatus => enumStrobeXfer s i EnumFsm.gcWaitStatus
  | EnumFsm.gcWaitStatus =>
    enumStatusWait s i EnumFsm.gcStatus EnumFsm.gcComplete EnumFsm.initReset
  | EnumFsm.gcComplete => { s with enumRetry := 0, fsm := EnumFsm.scLoad }
  | EnumFsm.scLoad => enumLoadSetup s i EnumFsm.scXfer
  | EnumFsm.scXfer => enumStrobeXfer s i EnumFsm.scWaitSetup
  | EnumFsm.scWaitSetup => enumWaitAckNoRetry s i EnumFsm.scStatus EnumFsm.initReset
  | EnumFsm.scStatus => enumStrobeXfer s i EnumFsm.scWaitStatus
  | EnumFsm.scWaitStatus =>
    enumStatusWait s i EnumFsm.scStatus EnumFsm.enumerationComplete EnumFsm.initReset
  | EnumFsm.enumerationComplete => { s with enumerated := true, fsm := EnumFsm.idle }
  | EnumFsm.idle => s

/-- The transfer strobed onto `sie.ctrl.xfer` this cycle (if any): each
token-issuing state drives the transfer parameters combinationally while the SIE
is idle.  DATA0 = `false`, DATA1 = `true`; every enumeration transfer targets
endpoint 0. -/
def enumXferOut (s : EnumState) (i : EnumIn) : Option Xfer :=
  if ¬i.sieIdle then Option.none else
  match s.fsm with
  | EnumFsm.gd1Xfer => some { ttype := TransferType.setup, devAddr := 0, epAddr := 0, dataPid := false }
  | EnumFsm.saXfer => some { ttype := TransferType.setup, devAddr := 0, epAddr := 0, dataPid := false }
  | EnumFsm.gdfXfer =>
    some { ttype := TransferType.setup, devAddr := s.currentDevAddr, epAddr := 0, dataPid := false }
  | EnumFsm.gcXfer =>
    some { ttype := TransferType.setup, devAddr := s.currentDevAddr, epAddr := 0, dataPid := false }
  | EnumFsm.scXfer =>
    some { ttype := TransferType.setup, devAddr := s.currentDevAddr, epAddr := 0, dataPid := false }
  | EnumFsm.gd1In => some { ttype := TransferType.tin, devAddr := 0, epAddr := 0, dataPid := true }
  | EnumFsm.gdfIn =>
    some { ttype := TransferType.tin, devAddr := s.currentDevAddr, epAddr := 0, dataPid := true }
  | EnumFsm.gcIn =>
    some { ttype := TransferType.tin, devAddr := s.currentDevAddr, epAddr := 0, dataPid := true }
  | EnumFsm.gd1Status => some { ttype := TransferType.tout, devAddr := 0, epAddr := 0, dataPid := true }
  | EnumFsm.saStatus => some { ttype := TransferType.tin, devAddr := 0, epAddr := 0, dataPid := true }
  | EnumFsm.gdfStatus =>
    some { ttype := TransferType.tout, devAddr := s.currentDevAddr, epAddr := 0, dataPid := true }
  | EnumFsm.gcStatus =>
    some { ttype := TransferType.tout, devAddr := s.currentDevAddr, epAddr := 0, dataPid := true }
  | EnumFsm.scStatus =>
    some { ttype := TransferType.tin, devAddr := s.currentDevAddr, epAddr := 0, dataPid := true }
  | _ => Option.none

/-- Enumerator reset state (all registers at their `init` values). -/
def enumInitState : EnumState :=
  { fsm := EnumFsm.initReset, currentDevAddr := 0, enumRetry := 0,
    resetTriggered := false, setupByteIx := 0, maxPacketSize := 64,
    lastPacketByte := 0, enumerated := false }

-- ============================================================
-- Claim C3: enumeration retry policy
-- ============================================================

/-- The LOAD state a retrying SETUP wait state goes back to. -/
def enumRetryFrom : EnumFsm → EnumFsm
  | EnumFsm.gd1WaitSetup => EnumFsm.gd1Load
  | EnumFsm.gdfWaitSetup => EnumFsm.gdfLoad
  | EnumFsm.gcWaitSetup => EnumFsm.gcLoad
  | _ => EnumFsm.initReset

/-- The status-transaction state a WAIT-STATUS state retries into on NAK. -/
def enumStatusOf : EnumFsm → EnumFsm
  | EnumFsm.gd1WaitStatus => EnumFsm.gd1Status
  | EnumFsm.saWaitStatus => EnumFsm.saStatus
  | EnumFsm.gdfWaitStatus => EnumFsm.gdfStatus
  | EnumFsm.gcWaitStatus => EnumFsm.gcStatus
  | EnumFsm.scWaitStatus => EnumFsm.scStatus
  | _ => EnumFsm.initReset

/-- Enumerator input cycle: SIE idle reporting a given response. -/
def enumIdleIn (r : TransferResponse) : EnumIn :=
  { speedKnown := true, sieIdle := true, response := r, rxLen := 0,
    sofFrame := 0, rxsValid := false, rxsPayload := 0, txsReady := false }

/-- C3 counterexample: in stage 2 (SET_ADDRESS) the SETUP wait state has no retry
counter — the very first NAK, with `enum_retry` still 0, sends the enumerator
straight to INIT-RESET (whose entry strobes `bus_reset`), with no retries at all. -/
theorem enum_stage2_setup_resets_on_first_nak :
    ({ enumInitState with fsm := EnumFsm.saWaitSetup } : EnumState).enumRetry = 0 ∧
    (enumStep 0x12 { enumInitState with fsm := EnumFsm.saWaitSetup }
      (enumIdleIn TransferResponse.nak)).fsm = EnumFsm.initReset ∧
    enumBusReset (enumStep 0x12 { enumInitState with fsm := EnumFsm.saWaitSetup }
      (enumIdleIn TransferResponse.nak)) = true := by
  decide

/-- C3 (amended): with the SIE idle, (a) in stages 1, 3 and 4 the SETUP wait state
retries a NAK or TIMEOUT up to 3 times (bumping `enum_retry`) and triggers a bus
reset once `enum_retry` has reached 3; (b) in stages 2 and 5 the SETUP wait state
has no retry counter and a single NAK or TIMEOUT goes straight to INIT-RESET;
(c) every stage's status wait state retries the status transaction on NAK and
treats TIMEOUT as a hard error (INIT-RESET / bus reset). -/
theorem enum_retry_policy (devAddress : Nat) (s : EnumState) (i : EnumIn)
    (hidle : i.sieIdle = true) :
    ((s.fsm = EnumFsm.gd1WaitSetup ∨ s.fsm = EnumFsm.gdfWaitSetup ∨
      s.fsm = EnumFsm.gcWaitSetup) →
      (i.response = TransferResponse.nak ∨ i.response = TransferResponse.timeout) →
      (s.enumRetry < 3 →
        (enumStep devAddress s i).fsm = enumRetryFrom s.fsm ∧
        (enumStep devAddress s i).enumRetry = s.enumRetry + 1) ∧
      (3 ≤ s.enumRetry →
        (enumStep devAddress s i).fsm = EnumFsm.initReset ∧
        (enumStep devAddress s i).enumRetry = 0)) ∧
    ((s.fsm = EnumFsm.saWaitSetup ∨ s.fsm = EnumFsm.scWaitSetup) →
      (i.response = TransferResponse.nak ∨ i.response = TransferResponse.timeout) →
      (enumStep devAddress s i).fsm = EnumFsm.initReset) ∧
    ((s.fsm = EnumFsm.gd1WaitStatus ∨ s.fsm = EnumFsm.saWaitStatus ∨
      s.fsm = EnumFsm.gdfWaitStatus ∨ s.fsm = EnumFsm.gcWaitStatus ∨
      s.fsm = EnumFsm.scWaitStatus) →
      (i.response = TransferResponse.nak →
        (enumStep devAddress s i).fsm = enumStatusOf s.fsm) ∧
      (i.response = TransferResponse.timeout →
        (enumStep devAddress s i).fsm = EnumFsm.initReset)) := by
  refine ⟨?_, ?_, ?_⟩
  · intro hf hr
    rcases hf with h | h | h <;> rcases hr with h2 | h2 <;>
      refine ⟨fun hlt => ?_, fun hge => ?_⟩ <;>
      simp_all [enumStep, enumWaitAckRetry, enumRetryFrom] <;>
      split_ifs <;>
      simp_all <;>
      omega
  · intro hf hr
    rcases hf with h | h <;> rcases hr with h2 | h2 <;>
      simp_all [enumStep, enumWaitAckNoRetry]
  · intro hf
    rcases hf with h | h | h | h | h <;>
      refine ⟨fun h2 => ?_, fun h2 => ?_⟩ <;>
      simp_all [enumStep, enumStatusWait, enumStatusOf]

/-- Witness for `enum_retry_policy`: in stage 1, a first NAK with `enum_retry = 0`
goes back to the LOAD state with `enum_retry = 1`. -/
theorem enum_retry_policy_witness :
    (enumStep 0x12 { enumInitState with fsm := EnumFsm.gd1WaitSetup }
      (enumIdleIn TransferResponse.nak)).fsm =
        enumRetryFrom EnumFsm.gd1WaitSetup ∧
    (enumStep 0x12 { enumInitState with fsm := EnumFsm.gd1WaitSetup }
      (enumIdleIn TransferResponse.nak)).enumRetry = 1 := by
  have h := enum_retry_policy 0x12 { enumInitState with fsm := EnumFsm.gd1WaitSetup }
    (enumIdleIn TransferResponse.nak) (by decide)
  exact (h.1 (Or.inl rfl) (Or.inl rfl)).1 (by decide)

-- ============================================================
-- Claim C4: multi-packet IN data phase
-- ============================================================

/-- C4 counterexample: in stage 4 the enumerator issues the IN token with
`data_pid` hard-coded to DATA1; after an ACKed full-size packet the next IN token
again carries DATA1 — the data PID is NOT incremented between DATA0 and DATA1 on
each ACK. -/
theorem enum_multi_in_pid_never_toggles :
    enumXferOut { enumInitState with
        fsm := EnumFsm.gcIn, maxPacketSize := 8, currentDevAddr := 0x12 }
      (enumIdleIn TransferResponse.none) =
      some { ttype := TransferType.tin, devAddr := 0x12, epAddr := 0, dataPid := true } ∧
    (enumStep 0x12 { enumInitState with
        fsm := EnumFsm.gcIn, maxPacketSize := 8, currentDevAddr := 0x12 }
      (enumIdleIn TransferResponse.none)).fsm = EnumFsm.gcWaitIn ∧
    (enumStep 0x12 (enumStep 0x12 { enumInitState with
        fsm := EnumFsm.gcIn, maxPacketSize := 8, currentDevAddr := 0x12 }
      (enumIdleIn TransferResponse.none))
      { enumIdleIn TransferResponse.ack with rxLen := 8 }).fsm = EnumFsm.gcIn ∧
    enumXferOut (enumStep 0x12 (enumStep 0x12 { enumInitState with
        fsm := EnumFsm.gcIn, maxPacketSize := 8, currentDevAddr := 0x12 }
      (enumIdleIn TransferResponse.none))
      { enumIdleIn TransferResponse.ack with rxLen := 8 })
      (enumIdleIn TransferResponse.none) =
      some { ttype := TransferType.tin, devAddr := 0x12, epAddr := 0, dataPid := true } := by
  decide

/-- C4 (amended): during the multi-packet IN data phases of stages 3 and 4, the
enumerator keeps issuing IN tokens on endpoint 0 of the current device address
with the data PID hard-coded to DATA1 (it never toggles), re-issues the same
token on NAK, and leaves the data phase on an ACK exactly when `rx_len` differs
from the captured `max_packet_size` (for a protocol-conforming device: when the
packet is strictly shorter); any other response also ends the data phase. -/
theorem enum_multi_in_data_phase (devAddress : Nat) (s : EnumState) (i : EnumIn)
    (hidle : i.sieIdle = true) :
    ((s.fsm = EnumFsm.gdfIn ∨ s.fsm = EnumFsm.gcIn) →
      enumXferOut s i = some { ttype := TransferType.tin, devAddr := s.currentDevAddr,
                               epAddr := 0, dataPid := true } ∧
      (enumStep devAddress s i).fsm =
        (if s.fsm = EnumFsm.gdfIn then EnumFsm.gdfWaitIn else EnumFsm.gcWaitIn)) ∧
    ((s.fsm = EnumFsm.gdfWaitIn ∨ s.fsm = EnumFsm.gcWaitIn) →
      (i.response = TransferResponse.ack →
        (enumStep devAddress s i).fsm =
          (if i.rxLen = s.maxPacketSize
           then (if s.fsm = EnumFsm.gdfWaitIn then EnumFsm.gdfIn else EnumFsm.gcIn)
           else (if s.fsm = EnumFsm.gdfWaitIn then EnumFsm.gdfStatus else EnumFsm.gcStatus))) ∧
      (i.response = TransferResponse.nak →
        (enumStep devAddress s i).fsm =
          (if s.fsm = EnumFsm.gdfWaitIn then EnumFsm.gdfIn else EnumFsm.gcIn))) := by
  refine ⟨?_, ?_⟩
  · intro hf
    rcases hf with h | h <;> simp_all [enumStep, enumStrobeXfer, enumXferOut]
  · intro hf
    rcases hf with h | h <;>
      refine ⟨fun h2 => ?_, fun h2 => ?_⟩ <;>
      simp_all [enumStep, enumMultiInWait] <;>
      split_ifs <;>
      simp_all

/-- Witness for `enum_multi_in_data_phase`: stage 3 issues DATA1 on endpoint 0 and
a NAK in the wait state re-issues the IN token. -/
theorem enum_multi_in_data_phase_witness :
    enumXferOut { enumInitState with fsm := EnumFsm.gdfIn }
      (enumIdleIn TransferResponse.none) =
      some { ttype := TransferType.tin,
             devAddr := ({ enumInitState with fsm := EnumFsm.gdfIn } : EnumState).currentDevAddr,
             epAddr := 0, dataPid := true } ∧
    (enumStep 0x12 { enumInitState with fsm := EnumFsm.gdfWaitIn }
      (enumIdleIn TransferResponse.nak)).fsm = EnumFsm.gdfIn := by
  have h1 := enum_multi_in_data_phase 0x12 { enumInitState with fsm := EnumFsm.gdfIn }
    (enumIdleIn TransferResponse.none) (by decide)
  have h2 := enum_multi_in_data_phase 0x12 { enumInitState with fsm := EnumFsm.gdfWaitIn }
    (enumIdleIn TransferResponse.nak) (by decide)
  refine ⟨(h1.1 (Or.inl rfl)).1, ?_⟩
  have := (h2.2 (Or.inl rfl)).2 rfl
  simpa using this

-- ============================================================
-- Descriptor parser (USBDescriptorParser in src/guh/usbh/descriptor.py)
-- ============================================================

/-- FSM states of `USBDescriptorParser`. -/
inductive PFsm
  | init
  | getLen
  | inDesc
  | done
  deriving DecidableEq, Repr

/-- Construction-time filter of `USBDescriptorParser`: which endpoint directions
to extract (`endpoint_filter` unfolded into the two `want_*` booleans computed in
`elaborate`), the wanted transfer type (2-bit), the interface class, and the
optional subclass / protocol filters. -/
structure ParserConfig where
  wantIn         : Bool
  wantOut        : Bool
  transferType   : Nat
  interfaceClass : Nat
  ifaceSubclass  : Option Nat
  ifaceProtocol  : Option Nat
  deriving DecidableEq, Repr

/-- Registers of `USBDescriptorParser.elaborate`, including the latched outputs. -/
structure ParserState where
  fsm           : PFsm
  bLength       : Nat
  offset        : Nat
  descType      : Nat
  ifaceClass    : Nat
  ifaceSubclass : Nat
  ifaceProtocol : Nat
  inMatching    : Bool
  endpAddr      : Nat
  endpAttr      : Nat
  foundIn       : Bool
  foundOut      : Bool
  oIEndp        : Nat
  oOEndp        : Nat
  oValid        : Bool
  deriving DecidableEq, Repr

/-- `DescriptorType.INTERFACE`. -/
def DescriptorType.INTERFACE : Nat := 0x4

/-- `DescriptorType.ENDPOINT`. -/
def DescriptorType.ENDPOINT : Nat := 0x5

/-- Combinational `i.ready` of the parser: the default assignment drives it high;
only the INIT state overrides it to 0.  In particular it stays high in DONE. -/
def parserReady (s : ParserState) : Bool :=
  s.fsm ≠ PFsm.init

/-- The `interface_match` expression at the end of an INTERFACE descriptor:
class equality, and subclass/protocol equality when those filters are configured. -/
def parserInterfaceMatch (cfg : ParserConfig) (s : ParserState) : Bool :=
  (s.ifaceClass == cfg.interfaceClass) &&
  (match cfg.ifaceSubclass with
   | some v => s.ifaceSubclass == v
   | Option.none => true) &&
  (match cfg.ifaceProtocol with
   | some v => s.ifaceProtocol == v
   | Option.none => true)

/-- End-of-descriptor evaluation (the `offset == bLength - 2` block): all reads use
the pre-cycle register values `s`; the per-offset byte captures of the same cycle
are already merged into `s1`. -/
def parserApplyEnd (cfg : ParserConfig) (s s1 : ParserState) : ParserState :=
  if s.descType = DescriptorType.INTERFACE then
    let m := parserInterfaceMatch cfg s
    let allFound := (cfg.wantIn → s.foundIn) ∧ (cfg.wantOut → s.foundOut)
    if allFound then { s1 with inMatching := m, oValid := true, fsm := PFsm.done }
    else { s1 with inMatching := m, fsm := PFsm.getLen }
  else if s.descType = DescriptorType.ENDPOINT then
    let typeMatch := s.endpAttr % 4 = cfg.transferType
    let isIn := s.endpAddr >>> 7 = 1
    let capIn := cfg.wantIn ∧ s.inMatching ∧ typeMatch ∧ isIn ∧ ¬s.foundIn
    let capOut := cfg.wantOut ∧ s.inMatching ∧ typeMatch ∧ ¬isIn ∧ ¬s.foundOut
    let allFound := (cfg.wantIn → (s.foundIn ∨ capIn)) ∧ (cfg.wantOut → (s.foundOut ∨ capOut))
    let s2 := { s1 with
      oIEndp := if capIn then s.endpAddr else s1.oIEndp,
      foundIn := if capIn then true else s1.foundIn,
      oOEndp := if capOut then s.endpAddr else s1.oOEndp,
      foundOut := if capOut then true else s1.foundOut }
    if allFound then { s2 with oValid := true, fsm := PFsm.done }
    else { s2 with fsm := PFsm.getLen }
  else
    let allFound := (cfg.wantIn → s.foundIn) ∧ (cfg.wantOut → s.foundOut)
    if allFound then { s1 with oValid := true, fsm := PFsm.done }
    else { s1 with fsm := PFsm.getLen }

/-- One clock cycle of `USBDescriptorParser`.  The `offset == bLength - 2`
comparison is an Amaranth signed comparison: for `bLength < 2` it never fires,
modelled by the explicit `2 ≤ s.bLength` conjunct. -/
def parserStep (cfg : ParserConfig) (s : ParserState)
    (enable iValid : Bool) (payload : Nat) : ParserState :=
  match s.fsm with
  | PFsm.init => if enable then { s with fsm := PFsm.getLen } else s
  | PFsm.getLen =>
    if iValid then { s with offset := 0, bLength := payload % 256, fsm := PFsm.inDesc }
    else s
  | PFsm.inDesc =>
    if iValid then
      let s1 := { s with
        descType := if s.offset = 0 then payload % 256 else s.descType,
        endpAddr := if s.offset = 1 ∧ s.descType = DescriptorType.ENDPOINT
                    then payload % 256 else s.endpAddr,
        endpAttr := if s.offset = 2 ∧ s.descType = DescriptorType.ENDPOINT
                    then payload % 256 else s.endpAttr,
        ifaceClass := if s.offset = 4 ∧ s.descType = DescriptorType.INTERFACE
                      then payload % 256 else s.ifaceClass,
        ifaceSubclass := if cfg.ifaceSubclass.isSome ∧ s.offset = 5 ∧
                            s.descType = DescriptorType.INTERFACE
                         then payload % 256 else s.ifaceSubclass,
        ifaceProtocol := if cfg.ifaceProtocol.isSome ∧ s.offset = 6 ∧
                            s.descType = DescriptorType.INTERFACE
                         then payload % 256 else s.ifaceProtocol,
        offset := (s.offset + 1) % 256 }
      if 2 ≤ s.bLength ∧ s.offset = s.bLength - 2 then parserApplyEnd cfg s s1 else s1
    else s
  | PFsm.done => s

/-- Feed a list of bytes to the parser with `enable` high and `i.valid` asserted
for each byte. -/
def parserFeed (cfg : ParserConfig) (s : ParserState) : List Nat → ParserState
  | [] => s
  | b :: rest => parserFeed cfg (parserStep cfg s true true b) rest

/-- Parser reset state. -/
def parserInit : ParserState :=
  { fsm := PFsm.init, bLength := 0, offset := 0, descType := 0, ifaceClass := 0,
    ifaceSubclass := 0, ifaceProtocol := 0, inMatching := false, endpAddr := 0,
    endpAttr := 0, foundIn := false, foundOut := false, oIEndp := 0, oOEndp := 0,
    oValid := false }

-- ============================================================
-- Claim C8: descriptor walking and output latching
-- ============================================================

lemma parserApplyEnd_fsm (cfg : ParserConfig) (s s1 : ParserState) :
    (parserApplyEnd cfg s s1).fsm = PFsm.getLen ∨
    (parserApplyEnd cfg s s1).fsm = PFsm.done := by
  simp only [parserApplyEnd]
  split_ifs <;> simp

lemma parserStep_mid (cfg : ParserConfig) (t : ParserState) (b : Nat)
    (hf : t.fsm = PFsm.inDesc) (hne : t.offset ≠ t.bLength - 2) :
    (parserStep cfg t true true b).fsm = PFsm.inDesc ∧
    (parserStep cfg t true true b).offset = (t.offset + 1) % 256 ∧
    (parserStep cfg t true true b).bLength = t.bLength := by
  have hcond : ¬(2 ≤ t.bLength ∧ t.offset = t.bLength - 2) := fun hc => hne hc.2
  simp only [parserStep, hf, if_true, if_neg hcond]
  simp [hf]

lemma parserStep_end (cfg : ParserConfig) (t : ParserState) (b : Nat)
    (hf : t.fsm = PFsm.inDesc) (h2 : 2 ≤ t.bLength) (hend : t.offset = t.bLength - 2) :
    (parserStep cfg t true true b).fsm = PFsm.getLen ∨
    (parserStep cfg t true true b).fsm = PFsm.done := by
  simp only [parserStep, hf, if_true, if_pos (And.intro h2 hend)]
  apply parserApplyEnd_fsm

lemma parser_inDesc_walk (cfg : ParserConfig) :
    ∀ (bytes : List Nat) (t : ParserState), t.fsm = PFsm.inDesc →
      2 ≤ t.bLength → t.bLength < 256 →
      t.offset + bytes.length = t.bLength - 1 → t.offset ≤ t.bLength - 2 →
      ((parserFeed cfg t bytes).fsm = PFsm.getLen ∨
       (parserFeed cfg t bytes).fsm = PFsm.done) ∧
      (∀ k, k < bytes.length → (parserFeed cfg t (bytes.take k)).fsm = PFsm.inDesc) := by
  intro bytes
  induction bytes with
  | nil =>
    intro t hf h2 hcap hsum hle
    simp at hsum
    omega
  | cons b0 rest ih =>
    intro t hf h2 hcap hsum hle
    by_cases hend : t.offset = t.bLength - 2
    · have hrest : rest.length = 0 := by simp at hsum; omega
      have hrestnil : rest = [] := List.eq_nil_of_length_eq_zero hrest
      subst hrestnil
      refine ⟨?_, ?_⟩
      · show (parserFeed cfg (parserStep cfg t true true b0) []).fsm = _ ∨ _
        simpa [parserFeed] using parserStep_end cfg t b0 hf h2 hend
      · intro k hk
        simp at hk
        subst hk
        simpa [parserFeed] using hf
    · have hlt : t.offset < t.bLength - 2 := by omega
      obtain ⟨hf', hoff, hbl⟩ := parserStep_mid cfg t b0 hf hend
      have hoff' : (parserStep cfg t true true b0).offset = t.offset + 1 := by
        rw [hoff]; apply Nat.mod_eq_of_lt; omega
      have hih := ih (parserStep cfg t true true b0) hf' (by omega)
        (by omega) (by rw [hoff', hbl]; simp at hsum ⊢; omega)
        (by rw [hoff', hbl]; omega)
      refine ⟨hih.1, ?_⟩
      intro k hk
      cases k with
      | zero => simpa [parserFeed] using hf
      | succ j =>
        have hj : j < rest.length := by simp at hk; omega
        show (parserFeed cfg (parserStep cfg t true true b0) (rest.take j)).fsm = _
        exact hih.2 j hj
  -- rebind since `ih` requires hypotheses about bLength preserved

lemma parserStep_getLen (cfg : ParserConfig) (s : ParserState) (b : Nat)
    (hf : s.fsm = PFsm.getLen) :
    parserStep cfg s true true b =
      { s with offset := 0, bLength := b % 256, fsm := PFsm.inDesc } := by
  simp [parserStep, hf]

lemma parserApplyEnd_valid_iff (cfg : ParserConfig) (s s1 : ParserState)
    (hfin : s1.foundIn = s.foundIn) (hfout : s1.foundOut = s.foundOut) :
    (((parserApplyEnd cfg s s1).fsm = PFsm.done ∧
      (parserApplyEnd cfg s s1).oValid = true) ↔
     ((cfg.wantIn = true → (parserApplyEnd cfg s s1).foundIn = true) ∧
      (cfg.wantOut = true → (parserApplyEnd cfg s s1).foundOut = true))) := by
  unfold parserApplyEnd
  by_cases h4 : s.descType = DescriptorType.INTERFACE
  · simp only [h4, if_true]
    split_ifs with hall <;> simp_all
  · by_cases h5 : s.descType = DescriptorType.ENDPOINT
    · simp only [h4, h5, if_false, if_true]
      split_ifs with hall <;>
        by_cases hwi : cfg.wantIn <;>
        by_cases hwo : cfg.wantOut <;>
        by_cases hci : (cfg.wantIn ∧ s.inMatching ∧ s.endpAttr % 4 = cfg.transferType ∧
          s.endpAddr >>> 7 = 1 ∧ ¬s.foundIn) <;>
        by_cases hco : (cfg.wantOut ∧ s.inMatching ∧ s.endpAttr % 4 = cfg.transferType ∧
          ¬(s.endpAddr >>> 7 = 1) ∧ ¬s.foundOut) <;>
        simp_all <;> tauto
    · simp only [h4, h5, if_false]
      split_ifs with hall <;> simp_all

lemma parserStep_end_valid (cfg : ParserConfig) (t : ParserState) (b : Nat)
    (hf : t.fsm = PFsm.inDesc) (h2 : 2 ≤ t.bLength) (hend : t.offset = t.bLength - 2) :
    (((parserStep cfg t true true b).fsm = PFsm.done ∧
      (parserStep cfg t true true b).oValid = true) ↔
     ((cfg.wantIn = true → (parserStep cfg t true true b).foundIn = true) ∧
      (cfg.wantOut = true → (parserStep cfg t true true b).foundOut = true))) := by
  have heq : parserStep cfg t true true b = parserApplyEnd cfg t { t with
      descType := if t.offset = 0 then b % 256 else t.descType,
      endpAddr := if t.offset = 1 ∧ t.descType = DescriptorType.ENDPOINT
                  then b % 256 else t.endpAddr,
      endpAttr := if t.offset = 2 ∧ t.descType = DescriptorType.ENDPOINT
                  then b % 256 else t.endpAttr,
      ifaceClass := if t.offset = 4 ∧ t.descType = DescriptorType.INTERFACE
                    then b % 256 else t.ifaceClass,
      ifaceSubclass := if cfg.ifaceSubclass.isSome ∧ t.offset = 5 ∧
                          t.descType = DescriptorType.INTERFACE
                       then b % 256 else t.ifaceSubclass,
      ifaceProtocol := if cfg.ifaceProtocol.isSome ∧ t.offset = 6 ∧
                          t.descType = DescriptorType.INTERFACE
                       then b % 256 else t.ifaceProtocol,
      offset := (t.offset + 1) % 256 } := by
    simp only [parserStep, hf, if_true, if_pos (And.intro h2 hend)]
  rw [heq]
  exact parserApplyEnd_valid_iff cfg t _ rfl rfl

lemma parserStep_done (cfg : ParserConfig) (s : ParserState) (e v : Bool) (b : Nat)
    (hf : s.fsm = PFsm.done) :
    parserStep cfg s e v b = s ∧ parserReady s = true := by
  constructor
  · simp [parserStep, hf]
  · simp [parserReady, hf]

/-- C8 (amended): (a) from GET-LEN the parser reads `bLength` (the descriptor's
byte 0) and consumes exactly `bLength - 1` further bytes while staying in
IN-DESCRIPTOR, then loops back to GET-LEN or terminates in DONE (for any
well-formed descriptor, `bLength ≥ 2`); (b) at the last byte of a descriptor the
parser asserts `o.valid` and enters DONE exactly when every endpoint direction
required by the filter has been captured; (c) in DONE the whole parser state —
in particular `i_endp` / `o_endp` / `valid` — never changes again, but `i.ready`
REMAINS asserted, so the parser keeps accepting (and discarding) input bytes
rather than stopping consumption. -/
theorem parser_walk_latch_and_keeps_ready (cfg : ParserConfig) :
    (∀ (s : ParserState) (b : Nat) (bytes : List Nat),
      s.fsm = PFsm.getLen → 2 ≤ b → b < 256 → bytes.length = b - 1 →
      ((parserFeed cfg s (b :: bytes)).fsm = PFsm.getLen ∨
       (parserFeed cfg s (b :: bytes)).fsm = PFsm.done) ∧
      (∀ k, k < bytes.length →
        (parserFeed cfg s ((b :: bytes).take (k + 1))).fsm = PFsm.inDesc)) ∧
    (∀ (s : ParserState) (b : Nat), s.fsm = PFsm.inDesc → 2 ≤ s.bLength →
      s.offset = s.bLength - 2 →
      (((parserStep cfg s true true b).fsm = PFsm.done ∧
        (parserStep cfg s true true b).oValid = true) ↔
       ((cfg.wantIn = true → (parserStep cfg s true true b).foundIn = true) ∧
        (cfg.wantOut = true → (parserStep cfg s true true b).foundOut = true)))) ∧
    (∀ (s : ParserState) (e v : Bool) (b : Nat), s.fsm = PFsm.done →
      parserStep cfg s e v b = s ∧ parserReady s = true) := by
  refine ⟨?_, ?_, ?_⟩
  · intro s b bytes hf hb2 hb hlen
    have hstep := parserStep_getLen cfg s b hf
    have hmod : b % 256 = b := Nat.mod_eq_of_lt hb
    have hwalk := parser_inDesc_walk cfg bytes (parserStep cfg s true true b)
      (by rw [hstep]) (by rw [hstep]; simpa [hmod] using hb2)
      (by rw [hstep]; simpa [hmod] using hb)
      (by rw [hstep]; simp [hmod]; omega) (by rw [hstep]; simp)
    refine ⟨hwalk.1, ?_⟩
    intro k hk
    have : (b :: bytes).take (k + 1) = b :: bytes.take k := rfl
    rw [this]
    show (parserFeed cfg (parserStep cfg s true true b) (bytes.take k)).fsm = _
    exact hwalk.2 k hk
  · intro s b hf h2 hend
    exact parserStep_end_valid cfg s b hf h2 hend
  · intro s e v b hf
    exact parserStep_done cfg s e v b hf

/-- Keyboard-style parser filter: first INTERRUPT IN endpoint of a HID
boot-keyboard interface (as constructed in `USBKeyboardHost`). -/
def parserKbdCfg : ParserConfig :=
  { wantIn := true, wantOut := false, transferType := 3, interfaceClass := 3,
    ifaceSubclass := some 1, ifaceProtocol := some 1 }

/-- A minimal configuration-descriptor tail: one matching INTERFACE descriptor
(9 bytes) followed by one INTERRUPT IN ENDPOINT descriptor (7 bytes, address 0x81). -/
def parserDemoStream : List Nat :=
  [9, 4, 0, 0, 0, 3, 1, 1, 0] ++ [7, 5, 0x81, 3, 0, 0, 8]

/-- Witness for `parser_walk_latch_and_keeps_ready`: a 2-byte descriptor is walked
in exactly one further byte; the demo endpoint descriptor's last byte latches
`valid`; DONE is a fixed point. -/
theorem parser_walk_latch_witness :
    ((parserFeed parserKbdCfg { parserInit with fsm := PFsm.getLen } [2, 0]).fsm =
        PFsm.getLen ∨
     (parserFeed parserKbdCfg { parserInit with fsm := PFsm.getLen } [2, 0]).fsm =
        PFsm.done) ∧
    (parserStep parserKbdCfg { parserInit with fsm := PFsm.done } true true 0xAA =
      { parserInit with fsm := PFsm.done } ∧
     parserReady { parserInit with fsm := PFsm.done } = true) := by
  have h := parser_walk_latch_and_keeps_ready parserKbdCfg
  refine ⟨?_, ?_⟩
  · exact (h.1 { parserInit with fsm := PFsm.getLen } 2 [0] rfl (by decide) (by decide)
      (by decide)).1
  · exact h.2.2 { parserInit with fsm := PFsm.done } true true 0xAA rfl

/-- C8 counterexample: after the demo stream the parser has captured IN endpoint
0x81, asserted `valid` and parked in DONE — yet `i.ready` is still high, and a
further offered byte is accepted (ready ∧ valid) and discarded.  The parser does
NOT stop consuming input bytes once valid. -/
theorem parser_consumes_after_valid :
    (parserFeed parserKbdCfg { parserInit with fsm := PFsm.getLen }
      parserDemoStream).oValid = true ∧
    (parserFeed parserKbdCfg { parserInit with fsm := PFsm.getLen }
      parserDemoStream).fsm = PFsm.done ∧
    (parserFeed parserKbdCfg { parserInit with fsm := PFsm.getLen }
      parserDemoStream).oIEndp = 0x81 ∧
    parserReady (parserFeed parserKbdCfg { parserInit with fsm := PFsm.getLen }
      parserDemoStream) = true := by
  decide

-- ============================================================
-- Keyboard engine (USBKeyboardHost in src/guh/engines/keyboard.py)
-- and the key0 comparison in src/examples/keyboard_host.py
-- ============================================================

/-- FSM states of `USBKeyboardHost`. -/
inductive KbdFsm
  | waitEnum
  | poll
  | emit
  deriving DecidableEq, Repr

/-- `_WATCHDOG_CYCLES` of the keyboard engine (~3 s at 60 MHz). -/
def kbdWatchdogCycles : Nat := 3 * 60000000

/-- Registers of `USBKeyboardHost`: data PID toggle, last polled SOF frame, the
4-bit receive byte counter, the 8 report bytes, and the watchdog counter. -/
structure KbdState where
  fsm         : KbdFsm
  pid         : Bool
  lSofFrame   : Nat
  rxByteCount : Nat
  reportBytes : List Nat
  watchdog    : Nat
  deriving DecidableEq, Repr

/-- Signals sampled by the keyboard engine in one cycle. -/
structure KbdIn where
  enumerated   : Bool
  parserValid  : Bool
  sieIdle      : Bool
  response     : TransferResponse
  sofFrame     : Nat
  rxsValid     : Bool
  rxsPayload   : Nat
  oReportReady : Bool
  devAddr      : Nat
  iEndp        : Nat
  deriving DecidableEq, Repr

/-- Keyboard engine reset state (also the state after a watchdog reset). -/
def kbdInitState : KbdState :=
  { fsm := KbdFsm.waitEnum, pid := false, lSofFrame := 0, rxByteCount := 0,
    reportBytes := List.replicate 8 0, watchdog := 0 }

/-- `o_report.valid`: asserted exactly in EMIT-REPORT. -/
def kbdReportValid (s : KbdState) : Bool :=
  s.fsm = KbdFsm.emit

/-- The IN poll strobed onto the SIE this cycle (KBD-POLL, SIE idle, new SOF
frame): endpoint from the parser, current toggling data PID. -/
def kbdXferOut (s : KbdState) (i : KbdIn) : Option Xfer :=
  if s.fsm = KbdFsm.poll ∧ i.sieIdle ∧ i.sofFrame ≠ s.lSofFrame then
    some { ttype := TransferType.tin, devAddr := i.devAddr, epAddr := i.iEndp,
           dataPid := s.pid }
  else Option.none

/-- One clock cycle of `USBKeyboardHost`.  The RX collection path runs outside the
FSM whenever `rxs.valid ∧ rxs.ready` (ready is driven only in KBD-POLL); the FSM's
`rx_byte_count := 0` on poll start overrides the RX-path increment.  The
`ResetInserter` driven by `watchdog_expired` resets the whole engine. -/
def kbdStep (s : KbdState) (i : KbdIn) : KbdState :=
  if s.watchdog = kbdWatchdogCycles - 1 then kbdInitState else
  let collect := i.rxsValid ∧ s.fsm = KbdFsm.poll
  let rb := if collect ∧ s.rxByteCount < 8
            then s.reportBytes.set s.rxByteCount (i.rxsPayload % 256)
            else s.reportBytes
  let rc := if collect then (s.rxByteCount + 1) % 16 else s.rxByteCount
  let wd := (s.watchdog + 1) % 2^32
  match s.fsm with
  | KbdFsm.waitEnum =>
    if i.enumerated ∧ i.parserValid then
      { s with fsm := KbdFsm.poll, watchdog := 0, reportBytes := rb, rxByteCount := rc }
    else { s with watchdog := wd, reportBytes := rb, rxByteCount := rc }
  | KbdFsm.poll =>
    if i.sieIdle ∧ i.sofFrame ≠ s.lSofFrame then
      { s with lSofFrame := i.sofFrame, rxByteCount := 0, reportBytes := rb,
               watchdog := wd }
    else
      match i.response with
      | TransferResponse.ack =>
        { s with pid := !s.pid, watchdog := 0, reportBytes := rb, rxByteCount := rc,
                 fsm := if 8 ≤ s.rxByteCount then KbdFsm.emit else KbdFsm.poll }
      | TransferResponse.nak =>
        { s with watchdog := 0, reportBytes := rb, rxByteCount := rc }
      | _ => { s with watchdog := wd, reportBytes := rb, rxByteCount := rc }
  | KbdFsm.emit =>
    if i.oReportReady then { s with fsm := KbdFsm.poll, watchdog := wd }
    else { s with watchdog := wd }

/-- Run the keyboard engine over a list of per-cycle inputs. -/
def kbdRun (s : KbdState) : List KbdIn → KbdState
  | [] => s
  | i :: rest => kbdRun (kbdStep s i) rest

/-- The "new key" suppression implemented downstream in the example application
(`examples/keyboard_host.py`, CHECK state): a character is sent over the UART only
when `key0` differs from the previous report's `key0` and is non-zero. -/
def exampleEmitsChar (key0 prevKey0 : Nat) : Bool :=
  key0 ≠ prevKey0 ∧ key0 ≠ 0

/-- Quiescent keyboard input cycle (enumerated device, SIE busy, no events). -/
def kbdInQuiet : KbdIn :=
  { enumerated := true, parserValid := true, sieIdle := false,
    response := TransferResponse.none, sofFrame := 0, rxsValid := false,
    rxsPayload := 0, oReportReady := false, devAddr := 0x12, iEndp := 1 }

/-- A polled IN transaction delivering the 8 bytes of `report`, starting the poll
in SOF frame `f` and ending with an ACK. -/
def kbdPollTrace (f : Nat) (report : List Nat) : List KbdIn :=
  [{ kbdInQuiet with sieIdle := true, sofFrame := f }] ++
  report.map (fun b => { kbdInQuiet with rxsValid := true, rxsPayload := b }) ++
  [{ kbdInQuiet with sieIdle := true, sofFrame := f, response := TransferResponse.ack }]

/-- C9 counterexample: two consecutive ACKed full reports with the same `key0`
(byte 2) but a different `key1` — the engine emits BOTH reports on `o_report`;
it performs no key0 comparison at all. -/
theorem kbd_emits_report_with_unchanged_key0 :
    (kbdRun { kbdInitState with fsm := KbdFsm.poll }
      (kbdPollTrace 1 [0, 0, 4, 0, 0, 0, 0, 0])).fsm = KbdFsm.emit ∧
    (kbdRun { kbdInitState with fsm := KbdFsm.poll }
      (kbdPollTrace 1 [0, 0, 4, 0, 0, 0, 0, 0])).reportBytes = [0, 0, 4, 0, 0, 0, 0, 0] ∧
    (kbdRun { kbdInitState with fsm := KbdFsm.poll }
      (kbdPollTrace 1 [0, 0, 4, 0, 0, 0, 0, 0] ++
       [{ kbdInQuiet with oReportReady := true }] ++
       kbdPollTrace 2 [0, 0, 4, 5, 0, 0, 0, 0])).fsm = KbdFsm.emit ∧
    (kbdRun { kbdInitState with fsm := KbdFsm.poll }
      (kbdPollTrace 1 [0, 0, 4, 0, 0, 0, 0, 0] ++
       [{ kbdInQuiet with oReportReady := true }] ++
       kbdPollTrace 2 [0, 0, 4, 5, 0, 0, 0, 0])).reportBytes =
      [0, 0, 4, 5, 0, 0, 0, 0] ∧
    kbdReportValid (kbdRun { kbdInitState with fsm := KbdFsm.poll }
      (kbdPollTrace 1 [0, 0, 4, 0, 0, 0, 0, 0] ++
       [{ kbdInQuiet with oReportReady := true }] ++
       kbdPollTrace 2 [0, 0, 4, 5, 0, 0, 0, 0])) = true := by
  decide

/-- C9 (amended): the keyboard ENGINE compares nothing — on an ACK with a full
8-byte report collected it always enters EMIT-REPORT and asserts `o_report.valid`,
whatever the report bytes or any previous report; the key0-only "new key"
comparison lives downstream in the example application, whose CHECK state
suppresses its UART character exactly when `key0` equals the previous `key0`
(or is zero). -/
theorem kbd_engine_no_key0_filter (s : KbdState) (i : KbdIn)
    (hf : s.fsm = KbdFsm.poll) (hwd : ¬s.watchdog = kbdWatchdogCycles - 1)
    (hidle : i.sieIdle = true) (hsame : i.sofFrame = s.lSofFrame)
    (hack : i.response = TransferResponse.ack) (hcnt : 8 ≤ s.rxByteCount) :
    (kbdStep s i).fsm = KbdFsm.emit ∧
    kbdReportValid (kbdStep s i) = true ∧
    (∀ k : Nat, exampleEmitsChar k k = false) := by
  have hstep : (kbdStep s i).fsm = KbdFsm.emit := by
    simp only [kbdStep, hf, if_neg hwd]
    have hcond : ¬(i.sieIdle = true ∧ ¬i.sofFrame = s.lSofFrame) := by
      intro hc; exact hc.2 hsame
    rw [if_neg hcond]
    simp [hack, hcnt]
  refine ⟨hstep, ?_, ?_⟩
  · simp [kbdReportValid, hstep]
  · intro k
    simp [exampleEmitsChar]

/-- Witness for `kbd_engine_no_key0_filter`: a concrete ACKed full report is
emitted. -/
theorem kbd_engine_no_key0_filter_witness :
    (kbdStep { kbdInitState with fsm := KbdFsm.poll, rxByteCount := 8 }
      { kbdInQuiet with sieIdle := true, response := TransferResponse.ack }).fsm =
      KbdFsm.emit ∧
    exampleEmitsChar 4 4 = false := by
  have h := kbd_engine_no_key0_filter
    { kbdInitState with fsm := KbdFsm.poll, rxByteCount := 8 }
    { kbdInQuiet with sieIdle := true, response := TransferResponse.ack }
    rfl (by decide) rfl rfl rfl (by decide)
  exact ⟨h.1, h.2.2 4⟩
